import Mathlib

/-!
# A verification development for the ZenML SQL store

This file gives a shallow embedding of the two source files of the
repository — `src/zenml/zen_stores/sql_zen_store.py` and
`src/zenml/zen_stores/schemas/secret_schemas.py` — and proves or refutes a
list of behavioural claims about them.

Modelling conventions:
* 128-bit UUIDs are modelled as `Nat`; names as `String`.
* Each SQL table is a `List` of row structures held in a `StoreState`; a row
  append (`session.add`) puts the new row at the end of the list, matching
  insertion order; SQL `.first()` is `List.find?` in table order.
* Python exceptions map to the constructors of `StoreError`
  (`KeyError` → `keyError`, `EntityExistsError` / `StackExistsError` /
  `StackComponentExistsError` → `entityExists`, `IllegalOperationError` →
  `illegalOperation`, `ValueError` → `valueError`).  Messages are kept as
  short static strings: the Python f-string interpolation of ids and names
  into messages is dropped, the error kind and raise sites are preserved.
* A SQLAlchemy session is modelled by `Sess`: a committed database plus the
  pending view seen by queries inside the session (SQLAlchemy autoflushes
  pending inserts, so queries inside the session see them).  Each
  `session.commit()` of the source maps to one `Sess.commitNow`; an
  operation that raises before any commit leaves the committed state
  untouched.  Public mutating operations return a `TxResult` carrying the
  result, the final committed state and the number of commits performed.
* `created`/`updated` timestamps carried by every row in the source are
  omitted: no claim below concerns them.
* Constants and schema conversion helpers imported by the source from
  modules that are not part of the two provided files
  (`zenml.constants`, the schema classes' `from_create_model` /
  `from_update_model`) are modelled from the spec where they are needed;
  each such definition says so in its doc comment.
-/

namespace ZenStore

/-- Name-or-id argument: the source dispatches on
`uuid_utils.is_valid_uuid(object_name_or_id)`, i.e. on whether the argument
parses as a UUID.  A `byId` value is a parsed UUID, a `byName` value is any
other string. -/
inductive NameOrId where
  | byId (i : Nat)
  | byName (n : String)
deriving Repr, DecidableEq

/-- The error kinds raised by the store (Python exception classes).
`StackExistsError` and `StackComponentExistsError` both specialize
`EntityExistsError` in the source and are all modelled as `entityExists`. -/
inductive StoreError where
  | keyError (msg : String)
  | entityExists (msg : String)
  | illegalOperation (msg : String)
  | valueError (msg : String)
deriving Repr, DecidableEq

/-- Embeds `zenml.enums.StackComponentType` (only the variants the source file
mentions explicitly, plus a catch-all used by nothing in the claims). -/
inductive CType where
  | orchestrator
  | artifactStore
  | containerRegistry
  | stepOperator
deriving Repr, DecidableEq

/-- Embeds `zenml.enums.ExecutionStatus`. -/
inductive ExecutionStatus where
  | initializing
  | failed
  | completed
  | running
  | cached
deriving Repr, DecidableEq

/-- Row of `ProjectSchema`. -/
structure ProjectRow where
  id : Nat
  name : String
deriving Repr, DecidableEq

/-- Row of `UserSchema`. -/
structure UserRow where
  id : Nat
  name : String
deriving Repr, DecidableEq

/-- Row of `TeamSchema`. -/
structure TeamRow where
  id : Nat
  name : String
deriving Repr, DecidableEq

/-- Row of `RoleSchema`. -/
structure RoleRow where
  id : Nat
  name : String
deriving Repr, DecidableEq

/-- Row of `RolePermissionSchema` (one named permission of one role). -/
structure RolePermissionRow where
  roleId : Nat
  name : String
deriving Repr, DecidableEq

/-- Row of `UserRoleAssignmentSchema`; `projectId = none` is a global
assignment. -/
structure UserRoleAssignmentRow where
  roleId : Nat
  userId : Nat
  projectId : Option Nat
deriving Repr, DecidableEq

/-- Row of `TeamRoleAssignmentSchema`. -/
structure TeamRoleAssignmentRow where
  roleId : Nat
  teamId : Nat
  projectId : Option Nat
deriving Repr, DecidableEq

/-- Row of `StackSchema`. -/
structure StackRow where
  id : Nat
  name : String
  projectId : Nat
  userId : Nat
  isShared : Bool
deriving Repr, DecidableEq

/-- Row of `StackCompositionSchema` (stack/component membership join). -/
structure StackCompositionRow where
  stackId : Nat
  componentId : Nat
deriving Repr, DecidableEq

/-- Row of `StackComponentSchema`. -/
structure ComponentRow where
  id : Nat
  name : String
  type : CType
  flavor : String
  projectId : Nat
  userId : Nat
  isShared : Bool
deriving Repr, DecidableEq

/-- Row of `PipelineSchema`. -/
structure PipelineRow where
  id : Nat
  name : String
  projectId : Nat
deriving Repr, DecidableEq

/-- Row of `PipelineRunSchema`; `stackId`/`pipelineId` are nullable foreign
keys. -/
structure RunRow where
  id : Nat
  name : String
  projectId : Nat
  stackId : Option Nat
  pipelineId : Option Nat
deriving Repr, DecidableEq

/-- Row of `StepRunSchema`. -/
structure StepRunRow where
  id : Nat
  name : String
  pipelineRunId : Nat
  status : ExecutionStatus
  cacheKey : String
deriving Repr, DecidableEq

/-- Row of `StepRunParentsSchema` (parent-step edge of the lineage graph). -/
structure StepRunParentsRow where
  parentId : Nat
  childId : Nat
deriving Repr, DecidableEq

/-- Row of `StepRunInputArtifactSchema` (input-artifact edge). -/
structure StepRunInputArtifactRow where
  stepRunId : Nat
  artifactId : Nat
  name : String
deriving Repr, DecidableEq

/-- Row of `StepRunOutputArtifactSchema` (output-artifact edge). -/
structure StepRunOutputArtifactRow where
  stepRunId : Nat
  artifactId : Nat
  name : String
deriving Repr, DecidableEq

/-- Row of `ArtifactSchema`. -/
structure ArtifactRow where
  id : Nat
  uri : String
deriving Repr, DecidableEq

/-- The whole relational state: one list per table. -/
structure StoreState where
  projects : List ProjectRow := []
  users : List UserRow := []
  teams : List TeamRow := []
  roles : List RoleRow := []
  rolePermissions : List RolePermissionRow := []
  userRoleAssignments : List UserRoleAssignmentRow := []
  teamRoleAssignments : List TeamRoleAssignmentRow := []
  stackRows : List StackRow := []
  stackCompositions : List StackCompositionRow := []
  components : List ComponentRow := []
  pipelines : List PipelineRow := []
  runs : List RunRow := []
  stepRuns : List StepRunRow := []
  stepParents : List StepRunParentsRow := []
  stepInputs : List StepRunInputArtifactRow := []
  stepOutputs : List StepRunOutputArtifactRow := []
  artifacts : List ArtifactRow := []
deriving Repr, DecidableEq

/-- Result of one public operation: outcome, final committed database and
the number of `session.commit()` calls that were executed. -/
structure TxResult (α : Type) where
  result : Except StoreError α
  db : StoreState
  commits : Nat
deriving Repr

/-- A live session: committed state, pending (session-visible) state,
commits so far.  Opened by `with Session(self.engine) as session`. -/
structure Sess where
  committed : StoreState
  pending : StoreState
  commits : Nat
deriving Repr

/-- Open a session over a committed database. -/
def Sess.start (db : StoreState) : Sess := ⟨db, db, 0⟩

/-- Models `session.commit()`. -/
def Sess.commitNow (s : Sess) : Sess := ⟨s.pending, s.pending, s.commits + 1⟩

/-- Models `session.add(...)` and friends: mutate the pending state only. -/
def Sess.stage (s : Sess) (f : StoreState → StoreState) : Sess :=
  ⟨s.committed, f s.pending, s.commits⟩

/-- Raising an exception out of the session: whatever was already committed
stays committed, nothing pending lands. -/
def Sess.fail {α : Type} (s : Sess) (e : StoreError) : TxResult α :=
  ⟨.error e, s.committed, s.commits⟩

/-- Returning from the operation normally. -/
def Sess.done {α : Type} (s : Sess) (a : α) : TxResult α :=
  ⟨.ok a, s.committed, s.commits⟩

/-- Wrapper for the (most common) operation shape in the source: all reads,
guard checks and pending writes happen in the session, followed by exactly
one `session.commit()` at the end; an error raised on the way leaves the
committed state untouched. -/
def run1 {α : Type} (db : StoreState) (core : Except StoreError (α × StoreState)) :
    TxResult α :=
  match core with
  | .error e => ⟨.error e, db, 0⟩
  | .ok (a, db') => ⟨.ok a, db', 1⟩

/-- Embeds `SqlZenStore._get_schema_by_name_or_id`, specialized by the accessors of
one table: id lookup when the argument is a valid UUID, else name lookup;
`KeyError` when no row matches. -/
def getByNameOrId {ρ : Type} (rows : List ρ) (rid : ρ → Nat) (rname : ρ → String)
    (schemaName : String) (x : NameOrId) : Except StoreError ρ :=
  match x with
  | .byId i =>
    match rows.find? (fun r => rid r == i) with
    | some r => .ok r
    | none => .error (.keyError (schemaName ++ ": no entity with this ID found"))
  | .byName n =>
    match rows.find? (fun r => rname r == n) with
    | some r => .ok r
    | none =>
      .error (.keyError (schemaName ++ ": not a valid UUID and no entity with this name exists"))

/-- Embeds `SqlZenStore._get_project_schema`. -/
def getProjectSchema (db : StoreState) (x : NameOrId) : Except StoreError ProjectRow :=
  getByNameOrId db.projects ProjectRow.id ProjectRow.name "project" x

/-- Embeds `SqlZenStore._get_user_schema`. -/
def getUserSchema (db : StoreState) (x : NameOrId) : Except StoreError UserRow :=
  getByNameOrId db.users UserRow.id UserRow.name "user" x

/-- Embeds `SqlZenStore._get_team_schema`. -/
def getTeamSchema (db : StoreState) (x : NameOrId) : Except StoreError TeamRow :=
  getByNameOrId db.teams TeamRow.id TeamRow.name "team" x

/-- Embeds `SqlZenStore._get_role_schema`. -/
def getRoleSchema (db : StoreState) (x : NameOrId) : Except StoreError RoleRow :=
  getByNameOrId db.roles RoleRow.id RoleRow.name "role" x

/-- Embeds `SqlZenStore._get_run_schema`. -/
def getRunSchema (db : StoreState) (x : NameOrId) : Except StoreError RunRow :=
  getByNameOrId db.runs RunRow.id RunRow.name "run" x

/-! ## Stacks (`create_stack`, `update_stack`, `list_stacks` and their guards) -/

/-- Payload `StackModel`: the payload handed to `create_stack`/`update_stack`.
`project` and `user` are UUID references; `components` maps each component
type to the list of referenced component ids. -/
structure StackModel where
  id : Nat
  name : String
  projectId : Nat
  userId : Nat
  isShared : Bool
  components : List (CType × List Nat)
deriving Repr, DecidableEq

/-- All component ids referenced across the type buckets of a stack payload
(`component_ids` in `create_stack`). -/
def StackModel.componentIds (m : StackModel) : List Nat :=
  m.components.flatMap (fun b => b.2)

/-- Embeds `SqlZenStore.fail_if_stack_with_id_already_exists`. -/
def failIfStackWithIdAlreadyExists (db : StoreState) (m : StackModel) :
    Except StoreError Unit :=
  if (db.stackRows.find? (fun r => r.id == m.id)).isSome then
    .error (.entityExists "stack: found an existing component with the same id")
  else .ok ()

/-- Embeds `SqlZenStore.fail_if_stack_with_name_exists_for_user`: domain-key guard
on (name, project, owner), queried with the payload's values. -/
def failIfStackWithNameExistsForUser (db : StoreState) (m : StackModel) :
    Except StoreError Unit :=
  if (db.stackRows.find? (fun r =>
      r.name == m.name && r.projectId == m.projectId && r.userId == m.userId)).isSome then
    .error (.entityExists "stack: existing stack with the same name, project and owner")
  else .ok ()

/-- Embeds `SqlZenStore.fail_if_stack_with_name_already_shared`: shared-name guard
on (name, project, is_shared), queried with the payload's values (the
callers only invoke it with `is_shared = true` payloads). -/
def failIfStackWithNameAlreadyShared (db : StoreState) (m : StackModel) :
    Except StoreError Unit :=
  if (db.stackRows.find? (fun r =>
      r.name == m.name && r.projectId == m.projectId && r.isShared == m.isShared)).isSome then
    .error (.entityExists "stack: existing shared stack with the same name in project")
  else .ok ()

/-- Modelled from the spec: `StackSchema.from_create_model` (the schema
classes are not among the provided source files).  Builds the stack row and
one composition row per referenced component that exists. -/
def stackRowOfModel (m : StackModel) : StackRow :=
  ⟨m.id, m.name, m.projectId, m.userId, m.isShared⟩

/-- Modelled from the spec: composition rows linking the stack to each of
the `defined_components` resolved by the caller. -/
def compositionRowsOf (stackId : Nat) (defined : List ComponentRow) :
    List StackCompositionRow :=
  defined.map (fun c => ⟨stackId, c.id⟩)

/-- Modelled from the spec: `StackSchema.to_model` — each storage row
exposes a pure function to its external model.  Composition edges are
re-read by the caller, so only row fields appear here. -/
def stackRowToModel (r : StackRow) (components : List (CType × List Nat)) : StackModel :=
  ⟨r.id, r.name, r.projectId, r.userId, r.isShared, components⟩

/-- Embeds `SqlZenStore.create_stack`: resolve project and user, run the three
guards (id, domain key, shared name — the last only if the payload is
shared), resolve all referenced components in one batch and fail with
`KeyError` if any is missing, then insert and commit once. -/
def create_stack (db : StoreState) (m : StackModel) : TxResult StackModel :=
  run1 db (do
    let _proj ← getProjectSchema db (.byId m.projectId)
    let _user ← getUserSchema db (.byId m.userId)
    failIfStackWithIdAlreadyExists db m
    failIfStackWithNameExistsForUser db m
    if m.isShared then failIfStackWithNameAlreadyShared db m else pure ()
    let componentIds := m.componentIds
    let defined := db.components.filter (fun c => componentIds.contains c.id)
    if componentIds.length > 0 && defined.length != componentIds.length then
      throw (.keyError "stack: some components referenced in the stack were not found")
    else
      let row := stackRowOfModel m
      let db' := { db with
        stackRows := db.stackRows ++ [row],
        stackCompositions := db.stackCompositions ++ compositionRowsOf m.id defined }
      pure (stackRowToModel row m.components, db'))

/-- Modelled from the spec: constant `DEFAULT_STACK_NAME` from
`zenml.constants` (the reserved default stack is identified by the
well-known constant name "default"). -/
def DEFAULT_STACK_NAME : String := "default"

/-- Modelled from the spec: constant `DEFAULT_STACK_COMPONENT_NAME` from
`zenml.constants`. -/
def DEFAULT_STACK_COMPONENT_NAME : String := "default"

/-- Modelled from the spec: `StackSchema.from_update_model` — partial field
merge of the update payload into the existing row, plus replacement of the
composition edges by the resolved `defined_components`. -/
def applyStackUpdate (db : StoreState) (m : StackModel) (defined : List ComponentRow) :
    StoreState :=
  { db with
    stackRows := db.stackRows.map (fun r =>
      if r.id == m.id then ⟨r.id, m.name, r.projectId, r.userId, m.isShared⟩ else r),
    stackCompositions :=
      db.stackCompositions.filter (fun e => e.stackId != m.id)
        ++ compositionRowsOf m.id defined }

/-- Embeds `SqlZenStore.update_stack`: find the existing row by id (`KeyError` if
missing), refuse to modify the default stack (`IllegalOperationError`),
re-run the domain guard only when renaming, re-run the shared guard only
when transitioning un-shared → shared, resolve the referenced components
(without an existence check, unlike `create_stack`), merge and commit
once. -/
def update_stack (db : StoreState) (m : StackModel) : TxResult StackModel :=
  run1 db (do
    match db.stackRows.find? (fun r => r.id == m.id) with
    | none => throw (.keyError "stack: found no existing stack with this id")
    | some existing =>
      if existing.name == DEFAULT_STACK_NAME then
        throw (.illegalOperation "the default stack cannot be modified")
      else do
        if existing.name != m.name then do
          let _proj ← getProjectSchema db (.byId m.projectId)
          let _user ← getUserSchema db (.byId m.userId)
          failIfStackWithNameExistsForUser db m
        else pure ()
        if !existing.isShared && m.isShared then do
          let _proj ← getProjectSchema db (.byId m.projectId)
          failIfStackWithNameAlreadyShared db m
        else pure ()
        let componentIds := m.componentIds
        let defined := db.components.filter (fun c => componentIds.contains c.id)
        pure (stackRowToModel (stackRowOfModel m) m.components,
          applyStackUpdate db m defined))

/-- The ANDed filter predicate built by `list_stacks`: one equality clause
per supplied filter, omitted clauses are simply absent. -/
def stackMatches (db : StoreState) (pFilter uFilter componentId : Option Nat)
    (name : Option String) (isShared : Option Bool) (r : StackRow) : Bool :=
  (match pFilter with
   | some pid => r.projectId == pid
   | none => true) &&
  (match uFilter with
   | some uid => r.userId == uid
   | none => true) &&
  (match componentId with
   | some cid => db.stackCompositions.any (fun e =>
       e.stackId == r.id && e.componentId == cid)
   | none => true) &&
  (match name with
   | some n => r.name == n
   | none => true) &&
  (match isShared with
   | some b => r.isShared == b
   | none => true)

/-- The project-filter resolution step of `list_stacks`: absent filter →
no clause; present filter → resolve (and possibly raise) first. -/
def resolveProjectFilter (db : StoreState) : Option NameOrId → Except StoreError (Option Nat)
  | none => pure none
  | some x => (getProjectSchema db x).map (fun p => some p.id)

/-- The user-filter resolution step of `list_stacks`. -/
def resolveUserFilter (db : StoreState) : Option NameOrId → Except StoreError (Option Nat)
  | none => pure none
  | some x => (getUserSchema db x).map (fun u => some u.id)

/-- Equation lemma for `resolveProjectFilter` on an absent filter. -/
theorem resolveProjectFilter_none (db : StoreState) :
    resolveProjectFilter db none = pure none := rfl

/-- Equation lemma for `resolveProjectFilter` on a present filter. -/
theorem resolveProjectFilter_some (db : StoreState) (x : NameOrId) :
    resolveProjectFilter db (some x) = (getProjectSchema db x).map (fun p => some p.id) := rfl

/-- Equation lemma for `resolveUserFilter` on an absent filter. -/
theorem resolveUserFilter_none (db : StoreState) :
    resolveUserFilter db none = pure none := rfl

/-- Equation lemma for `resolveUserFilter` on a present filter. -/
theorem resolveUserFilter_some (db : StoreState) (x : NameOrId) :
    resolveUserFilter db (some x) = (getUserSchema db x).map (fun u => some u.id) := rfl

/-- Embeds `SqlZenStore.list_stacks`: zero-or-more optional equality predicates,
ANDed; the project and user filters resolve their name-or-id argument
through `_get_project_schema` / `_get_user_schema` first (raising
`KeyError` when the entity does not exist), while the component filter is a
join on the composition table and the name and shared filters are plain
comparisons.  (The `order_by(name)` of the source only fixes presentation
order and is not modelled.) -/
def list_stacks (db : StoreState) (project : Option NameOrId)
    (user : Option NameOrId) (componentId : Option Nat) (name : Option String)
    (isShared : Option Bool) : Except StoreError (List StackModel) := do
  let pFilter ← resolveProjectFilter db project
  let uFilter ← resolveUserFilter db user
  let rows := db.stackRows.filter (stackMatches db pFilter uFilter componentId name isShared)
  pure (rows.map (fun r => stackRowToModel r []))

/-! ## Stack components -/

/-- Payload `ComponentModel`: the payload handed to
`create_stack_component`/`update_stack_component`. -/
structure ComponentModel where
  id : Nat
  name : String
  type : CType
  flavor : String
  projectId : Nat
  userId : Nat
  isShared : Bool
deriving Repr, DecidableEq

/-- Embeds `SqlZenStore.fail_if_component_with_id_already_exists`. -/
def failIfComponentWithIdAlreadyExists (db : StoreState) (m : ComponentModel) :
    Except StoreError Unit :=
  if (db.components.find? (fun c => c.id == m.id)).isSome then
    .error (.entityExists "component: found an existing component with the same id")
  else .ok ()

/-- Embeds `SqlZenStore.fail_if_component_with_name_type_exists_for_user`:
domain-key guard on (name, project, owner, type). -/
def failIfComponentWithNameTypeExistsForUser (db : StoreState) (m : ComponentModel) :
    Except StoreError Unit :=
  if (db.components.find? (fun c =>
      c.name == m.name && c.projectId == m.projectId && c.userId == m.userId
        && c.type == m.type)).isSome then
    .error (.entityExists
      "component: existing component with the same name and type owned by the same user")
  else .ok ()

/-- Embeds `SqlZenStore.fail_if_component_with_name_type_already_shared`:
shared-name guard on (name, project, is_shared, type), queried with the
payload's values (callers only invoke it with `is_shared = true`). -/
def failIfComponentWithNameTypeAlreadyShared (db : StoreState) (m : ComponentModel) :
    Except StoreError Unit :=
  if (db.components.find? (fun c =>
      c.name == m.name && c.projectId == m.projectId && c.isShared == m.isShared
        && c.type == m.type)).isSome then
    .error (.entityExists
      "component: existing shared component with the same name and type in project")
  else .ok ()

/-- Modelled from the spec: `StackComponentSchema.from_create_model`. -/
def componentRowOfModel (m : ComponentModel) : ComponentRow :=
  ⟨m.id, m.name, m.type, m.flavor, m.projectId, m.userId, m.isShared⟩

/-- Modelled from the spec: `StackComponentSchema.to_model`. -/
def componentRowToModel (c : ComponentRow) : ComponentModel :=
  ⟨c.id, c.name, c.type, c.flavor, c.projectId, c.userId, c.isShared⟩

/-- Embeds `SqlZenStore.create_stack_component`: resolve project and user, run the
id guard, the domain guard and — only for a shared payload — the shared
guard, then insert and commit once. -/
def create_stack_component (db : StoreState) (m : ComponentModel) :
    TxResult ComponentModel :=
  run1 db (do
    let _proj ← getProjectSchema db (.byId m.projectId)
    let _user ← getUserSchema db (.byId m.userId)
    failIfComponentWithIdAlreadyExists db m
    failIfComponentWithNameTypeExistsForUser db m
    if m.isShared then failIfComponentWithNameTypeAlreadyShared db m else pure ()
    let row := componentRowOfModel m
    pure (componentRowToModel row, { db with components := db.components ++ [row] }))

/-- Modelled from the spec: `StackComponentSchema.from_update_model` —
partial field merge of the update payload into the existing row. -/
def applyComponentUpdate (db : StoreState) (m : ComponentModel) : StoreState :=
  { db with components := db.components.map (fun c =>
      if c.id == m.id then ⟨c.id, m.name, m.type, m.flavor, c.projectId, c.userId, m.isShared⟩
      else c) }

/-- Embeds `SqlZenStore.update_stack_component`: find the existing row by id
(`KeyError` if missing); refuse to modify the default orchestrator or
artifact store (`IllegalOperationError`); re-run the domain guard only when
renaming; re-run the shared guard only when transitioning un-shared →
shared; merge and commit once. -/
def update_stack_component (db : StoreState) (m : ComponentModel) :
    TxResult ComponentModel :=
  run1 db (do
    match db.components.find? (fun c => c.id == m.id) with
    | none => throw (.keyError "component: found no existing component with this id")
    | some existing =>
      if existing.name == DEFAULT_STACK_COMPONENT_NAME
          && (existing.type == CType.orchestrator
              || existing.type == CType.artifactStore) then
        throw (.illegalOperation "the default component cannot be modified")
      else do
        if existing.name != m.name then do
          let _proj ← getProjectSchema db (.byId m.projectId)
          let _user ← getUserSchema db (.byId m.userId)
          failIfComponentWithNameTypeExistsForUser db m
        else pure ()
        if !existing.isShared && m.isShared then do
          let _proj ← getProjectSchema db (.byId m.projectId)
          failIfComponentWithNameTypeAlreadyShared db m
        else pure ()
        pure (componentRowToModel (componentRowOfModel m), applyComponentUpdate db m))

/-! ## Roles (`create_role`, `update_role`) -/

/-- Payload `RoleModel`: id, name and the set of named permissions (a Python `set`,
modelled as a duplicate-free list). -/
structure RoleModel where
  id : Nat
  name : String
  permissions : List String
deriving Repr, DecidableEq

/-- Modelled from the spec: constants `ADMIN_ROLE` / `GUEST_ROLE` from
`zenml.constants` — the two built-in roles are named "admin" and "guest". -/
def ADMIN_ROLE : String := "admin"

/-- Modelled from the spec: see `ADMIN_ROLE`. -/
def GUEST_ROLE : String := "guest"

/-- Embeds `SqlZenStore.create_role`: guard on duplicate role name, then — note —
TWO commits: the role row is committed first, and the permission rows are
added and committed separately. -/
def create_role (db : StoreState) (m : RoleModel) : TxResult RoleModel :=
  let s0 := Sess.start db
  if (db.roles.find? (fun r => r.name == m.name)).isSome then
    s0.fail (.entityExists "role: role already exists")
  else
    let s1 := s0.stage (fun d => { d with roles := d.roles ++ [⟨m.id, m.name⟩] })
    let s2 := s1.commitNow
    let s3 := s2.stage (fun d => { d with
      rolePermissions := d.rolePermissions ++ m.permissions.map (fun p => ⟨m.id, p⟩) })
    let s4 := s3.commitNow
    s4.done m

/-- The permission-set diff loop of `update_role`: every permission in the
symmetric difference is either deleted (present in the row set but not in
the payload) or inserted (present in the payload but not in the row set).
The source iterates a Python set in unspecified order; deletions and
insertions of distinct names commute, so they are applied here as one
filter plus one append. -/
def applyPermissionDiff (db : StoreState) (roleId : Nat) (newPerms : List String) :
    StoreState :=
  let existingPerms :=
    (db.rolePermissions.filter (fun p => p.roleId == roleId)).map (fun p => p.name)
  let toAdd := newPerms.filter (fun p => !existingPerms.contains p)
  { db with rolePermissions :=
      db.rolePermissions.filter (fun p =>
        !(p.roleId == roleId && !newPerms.contains p.name))
        ++ toAdd.map (fun p => ⟨roleId, p⟩) }

/-- Embeds `SqlZenStore.update_role`: find by id (`KeyError`), refuse the built-in
roles (`IllegalOperationError`), then TWO commits: the updated role row is
committed first, the permission diff is applied and committed separately. -/
def update_role (db : StoreState) (m : RoleModel) : TxResult RoleModel :=
  let s0 := Sess.start db
  match db.roles.find? (fun r => r.id == m.id) with
  | none => s0.fail (.keyError "role: found no existing roles with this id")
  | some existing =>
    if existing.name == ADMIN_ROLE || existing.name == GUEST_ROLE then
      s0.fail (.illegalOperation "the built-in role cannot be updated")
    else
      let s1 := s0.stage (fun d => { d with
        roles := d.roles.map (fun r => if r.id == m.id then ⟨r.id, m.name⟩ else r) })
      let s2 := s1.commitNow
      let s3 := s2.stage (fun d => applyPermissionDiff d existing.id m.permissions)
      let s4 := s3.commitNow
      s4.done m

/-! ## Role assignments -/

/-- Embeds `SqlZenStore._assign_role_to_user`: resolve role, optional project and
user; query existing assignments of (role, user) — adding a project
predicate ONLY when a project argument was supplied — and fail with
`EntityExistsError` on any match; otherwise insert the assignment row and
commit once. -/
def assign_role_to_user (db : StoreState) (role : NameOrId) (user : NameOrId)
    (project : Option NameOrId) : TxResult Unit :=
  run1 db (do
    let r ← getRoleSchema db role
    let p ← (match project with
      | none => (pure none : Except StoreError (Option ProjectRow))
      | some x => (getProjectSchema db x).map some)
    let u ← getUserSchema db user
    let existing : Option UserRoleAssignmentRow := match p with
      | some proj => db.userRoleAssignments.find? (fun a =>
          (a.userId == u.id && a.roleId == r.id) && a.projectId == some proj.id)
      | none => db.userRoleAssignments.find? (fun a =>
          a.userId == u.id && a.roleId == r.id)
    if existing.isSome then
      throw (.entityExists "role already assigned to user in this project")
    else
      pure ((), { db with userRoleAssignments :=
        db.userRoleAssignments ++ [⟨r.id, u.id, p.map (fun proj => proj.id)⟩] }))

/-- Embeds `SqlZenStore._assign_role_to_team`: same shape as the user variant. -/
def assign_role_to_team (db : StoreState) (role : NameOrId) (team : NameOrId)
    (project : Option NameOrId) : TxResult Unit :=
  run1 db (do
    let r ← getRoleSchema db role
    let p ← (match project with
      | none => (pure none : Except StoreError (Option ProjectRow))
      | some x => (getProjectSchema db x).map some)
    let t ← getTeamSchema db team
    let existing : Option TeamRoleAssignmentRow := match p with
      | some proj => db.teamRoleAssignments.find? (fun a =>
          (a.teamId == t.id && a.roleId == r.id) && a.projectId == some proj.id)
      | none => db.teamRoleAssignments.find? (fun a =>
          a.teamId == t.id && a.roleId == r.id)
    if existing.isSome then
      throw (.entityExists "role already assigned to team in this project")
    else
      pure ((), { db with teamRoleAssignments :=
        db.teamRoleAssignments ++ [⟨r.id, t.id, p.map (fun proj => proj.id)⟩] }))

/-- Embeds `SqlZenStore.assign_role`: dispatch on `is_user`. -/
def assign_role (db : StoreState) (role : NameOrId) (subject : NameOrId)
    (project : Option NameOrId) (isUser : Bool) : TxResult Unit :=
  if isUser then assign_role_to_user db role subject project
  else assign_role_to_team db role subject project

/-! ## Pipeline runs (`create_run`, `get_run`, `get_or_create_run`) -/

/-- Payload `PipelineRunModel`. -/
structure PipelineRunModel where
  id : Nat
  name : String
  projectId : Nat
  stackId : Option Nat
  pipelineId : Option Nat
deriving Repr, DecidableEq

/-- Modelled from the spec: `PipelineRunSchema.to_model`. -/
def runRowToModel (r : RunRow) : PipelineRunModel :=
  ⟨r.id, r.name, r.projectId, r.stackId, r.pipelineId⟩

/-- Embeds `SqlZenStore.create_run`: fail with `EntityExistsError` on a duplicate
run NAME, then on a duplicate run ID; a referenced stack or pipeline id
that does not resolve is silently dropped (logged in the source) and the
run is created stack-less / unlisted; insert and commit once. -/
def create_run (db : StoreState) (m : PipelineRunModel) : TxResult PipelineRunModel :=
  run1 db (do
    if (db.runs.find? (fun r => r.name == m.name)).isSome then
      throw (.entityExists "run: a pipeline run with this name already exists")
    else if (db.runs.find? (fun r => r.id == m.id)).isSome then
      throw (.entityExists "run: a pipeline run with this ID already exists")
    else
      let stackId := match m.stackId with
        | some sid =>
          if (db.stackRows.find? (fun st => st.id == sid)).isSome then some sid else none
        | none => none
      let pipelineId := match m.pipelineId with
        | some pid =>
          if (db.pipelines.find? (fun pl => pl.id == pid)).isSome then some pid else none
        | none => none
      let row : RunRow := ⟨m.id, m.name, m.projectId, stackId, pipelineId⟩
      pure (runRowToModel row, { db with runs := db.runs ++ [row] }))

/-- Embeds `SqlZenStore.get_run` (read-only): resolve the run by name or id. -/
def get_run (db : StoreState) (x : NameOrId) : Except StoreError PipelineRunModel :=
  (getRunSchema db x).map runRowToModel

/-- Embeds `SqlZenStore.get_or_create_run`: attempt the create; if (and only if)
it raised `EntityExistsError`, retry as a get by id; if that raised
`KeyError`, fall back to a get by name. -/
def get_or_create_run (db : StoreState) (m : PipelineRunModel) :
    TxResult PipelineRunModel :=
  let c := create_run db m
  match c.result with
  | .error (.entityExists _) =>
    match get_run db (.byId m.id) with
    | .ok r => ⟨.ok r, db, 0⟩
    | .error (.keyError _) =>
      match get_run db (.byName m.name) with
      | .ok r => ⟨.ok r, db, 0⟩
      | .error e => ⟨.error e, db, 0⟩
    | .error e => ⟨.error e, db, 0⟩
  | _ => c

/-! ## Step runs and the lineage graph -/

/-- Payload `StepRunModel`: step fields plus the three graph relations
(parent step ids, named input artifacts, named output artifacts).  The
input/output mappings are name-keyed Python dicts, modelled as association
lists. -/
structure StepRunModel where
  id : Nat
  name : String
  pipelineRunId : Nat
  status : ExecutionStatus
  cacheKey : String
  parentStepIds : List Nat
  inputArtifacts : List (String × Nat)
  outputArtifacts : List (String × Nat)
deriving Repr, DecidableEq

/-- Modelled from the spec: `StepRunSchema.from_create_model`. -/
def stepRunRowOfModel (m : StepRunModel) : StepRunRow :=
  ⟨m.id, m.name, m.pipelineRunId, m.status, m.cacheKey⟩

/-- Modelled from the spec: `StepRunSchema.to_model`, with the three graph
relations supplied by the caller. -/
def stepRunRowToModel (r : StepRunRow) (parents : List Nat)
    (inputs outputs : List (String × Nat)) : StepRunModel :=
  ⟨r.id, r.name, r.pipelineRunId, r.status, r.cacheKey, parents, inputs, outputs⟩

/-- Embeds `SqlZenStore._set_run_step_parent_step`: check that the child and the
parent step exist (`KeyError` otherwise); if the edge is already present,
return without touching anything (idempotent re-insert); otherwise stage
the new edge row. -/
def set_run_step_parent_step (db : StoreState) (childId parentId : Nat) :
    Except StoreError StoreState := do
  if (db.stepRuns.find? (fun st => st.id == childId)).isNone then
    throw (.keyError "parent edge: no step with this ID found")
  else if (db.stepRuns.find? (fun st => st.id == parentId)).isNone then
    throw (.keyError "parent edge: no parent step with this ID found")
  else if (db.stepParents.find? (fun e =>
      e.childId == childId && e.parentId == parentId)).isSome then
    pure db
  else
    pure { db with stepParents := db.stepParents ++ [⟨parentId, childId⟩] }

/-- Embeds `SqlZenStore._set_run_step_input_artifact`: check that the step run and
the artifact exist (`KeyError` otherwise); the idempotency check matches on
the (step run id, artifact id) pair ONLY — the supplied name is not part of
the lookup — and an existing edge is left untouched; otherwise stage the
new edge row with the supplied name. -/
def set_run_step_input_artifact (db : StoreState) (runStepId artifactId : Nat)
    (name : String) : Except StoreError StoreState := do
  if (db.stepRuns.find? (fun st => st.id == runStepId)).isNone then
    throw (.keyError "input edge: no step run with this ID found")
  else if (db.artifacts.find? (fun a => a.id == artifactId)).isNone then
    throw (.keyError "input edge: no artifact with this ID found")
  else if (db.stepInputs.find? (fun e =>
      e.stepRunId == runStepId && e.artifactId == artifactId)).isSome then
    pure db
  else
    pure { db with stepInputs := db.stepInputs ++ [⟨runStepId, artifactId, name⟩] }

/-- Embeds `SqlZenStore._set_run_step_output_artifact`: same shape as the input
variant, against the output edge table. -/
def set_run_step_output_artifact (db : StoreState) (stepRunId artifactId : Nat)
    (name : String) : Except StoreError StoreState := do
  if (db.stepRuns.find? (fun st => st.id == stepRunId)).isNone then
    throw (.keyError "output edge: no step run with this ID found")
  else if (db.artifacts.find? (fun a => a.id == artifactId)).isNone then
    throw (.keyError "output edge: no artifact with this ID found")
  else if (db.stepOutputs.find? (fun e =>
      e.stepRunId == stepRunId && e.artifactId == artifactId)).isSome then
    pure db
  else
    pure { db with stepOutputs := db.stepOutputs ++ [⟨stepRunId, artifactId, name⟩] }

/-- The `for parent_step_id in step_run.parent_step_ids` loop of
`create_run_step`. -/
def setParentsFold (db : StoreState) (childId : Nat) (parents : List Nat) :
    Except StoreError StoreState :=
  match parents with
  | [] => .ok db
  | pid :: rest => do
    let db' ← set_run_step_parent_step db childId pid
    setParentsFold db' childId rest

/-- The input-artifact loop of `create_run_step`. -/
def setInputsFold (db : StoreState) (stepId : Nat) (inputs : List (String × Nat)) :
    Except StoreError StoreState :=
  match inputs with
  | [] => .ok db
  | (n, aid) :: rest => do
    let db' ← set_run_step_input_artifact db stepId aid n
    setInputsFold db' stepId rest

/-- The output-artifact loop of `create_run_step` and `update_run_step`. -/
def setOutputsFold (db : StoreState) (stepId : Nat) (outputs : List (String × Nat)) :
    Except StoreError StoreState :=
  match outputs with
  | [] => .ok db
  | (n, aid) :: rest => do
    let db' ← set_run_step_output_artifact db stepId aid n
    setOutputsFold db' stepId rest

/-- Embeds `SqlZenStore.create_run_step`: the parent pipeline run must exist
(`KeyError`), the step name must be new within that run
(`EntityExistsError`); the step row is staged and then — inside the same
session, which sees the staged row — all parent, input and output edges are
staged through the `_set_...` helpers; one commit at the end. -/
def create_run_step (db : StoreState) (m : StepRunModel) : TxResult StepRunModel :=
  run1 db (do
    if (db.runs.find? (fun r => r.id == m.pipelineRunId)).isNone then
      throw (.keyError "step: no pipeline run with this ID found")
    else if (db.stepRuns.find? (fun st =>
        st.name == m.name && st.pipelineRunId == m.pipelineRunId)).isSome then
      throw (.entityExists "step: a step with this name already exists in the pipeline run")
    else
      let db0 := { db with stepRuns := db.stepRuns ++ [stepRunRowOfModel m] }
      let db1 ← setParentsFold db0 m.id m.parentStepIds
      let db2 ← setInputsFold db1 m.id m.inputArtifacts
      let db3 ← setOutputsFold db2 m.id m.outputArtifacts
      pure (stepRunRowToModel (stepRunRowOfModel m) m.parentStepIds
        m.inputArtifacts m.outputArtifacts, db3))

/-- Modelled from the spec: `StepRunSchema.from_update_model` — the store
persists whatever status is supplied on update (partial field merge into
the step row; the graph relations are not part of the row). -/
def applyStepRunUpdate (db : StoreState) (m : StepRunModel) : StoreState :=
  { db with stepRuns := db.stepRuns.map (fun st =>
      if st.id == m.id then ⟨st.id, st.name, st.pipelineRunId, m.status, m.cacheKey⟩
      else st) }

/-- Embeds `SqlZenStore.update_run_step`: find the step by id (`KeyError`), merge
the row update, then re-process ONLY the output-artifact mapping through
`_set_run_step_output_artifact`; the parent and input lists of the payload
are never read (the source comments: "Input artifacts and parent steps
cannot be updated after the step has been created"); one commit. -/
def update_run_step (db : StoreState) (m : StepRunModel) : TxResult StepRunModel :=
  run1 db (do
    if (db.stepRuns.find? (fun st => st.id == m.id)).isNone then
      throw (.keyError "step: no step with this ID found")
    else
      let db1 := applyStepRunUpdate db m
      let db2 ← setOutputsFold db1 m.id m.outputArtifacts
      pure (stepRunRowToModel (stepRunRowOfModel m) m.parentStepIds
        m.inputArtifacts m.outputArtifacts, db2))

/-- Embeds `SqlZenStore._run_step_schema_to_model`: reassemble the step model by
three separate queries — parent ids through the parent-edge join, and the
name → artifact-id mappings of the input and output edge tables. -/
def runStepSchemaToModel (db : StoreState) (r : StepRunRow) : StepRunModel :=
  let parents := (db.stepRuns.filter (fun p =>
    db.stepParents.any (fun e => e.childId == r.id && e.parentId == p.id))).map
      (fun p => p.id)
  let inputs := (db.stepInputs.filter (fun e => e.stepRunId == r.id)).map
    (fun e => (e.name, e.artifactId))
  let outputs := (db.stepOutputs.filter (fun e => e.stepRunId == r.id)).map
    (fun e => (e.name, e.artifactId))
  stepRunRowToModel r parents inputs outputs

/-- Embeds `SqlZenStore.get_run_step` (read-only). -/
def get_run_step (db : StoreState) (stepRunId : Nat) : Except StoreError StepRunModel :=
  match db.stepRuns.find? (fun st => st.id == stepRunId) with
  | none => .error (.keyError "step: no step run with this ID found")
  | some r => .ok (runStepSchemaToModel db r)

/-- Embeds `SqlZenStore.get_artifact_producer_step`: first output edge pointing at
the artifact whose step run's status is not `cached` (the join
`output.step_run_id == step.id AND step.status != CACHED`); `KeyError` when
no such edge exists; the producer step is then read back through
`get_run_step`. -/
def get_artifact_producer_step (db : StoreState) (artifactId : Nat) :
    Except StoreError StepRunModel :=
  match db.stepOutputs.find? (fun e =>
      e.artifactId == artifactId
        && (db.stepRuns.find? (fun st =>
              st.id == e.stepRunId && st.status != ExecutionStatus.cached)).isSome) with
  | none => .error (.keyError "no producer step found for artifact")
  | some e => get_run_step db e.stepRunId

/-! ## Secret values codec (`secret_schemas.py`)

`SecretSchema._dump_secret_values` serializes the string-to-string mapping
with `json.dumps`, then either encrypts with the configured engine or —
with no engine — base64-encodes the UTF-8 bytes, and finally checks the
encoded byte length against `TEXT_FIELD_MAX_LENGTH`.
`SecretSchema._load_secret_values` inverts the byte-level step and calls
`json.loads`.  `json` (Python stdlib) and the `AesGcmEngine` (a SQLAlchemy
collaborator) are external to the repository: they appear below as function
parameters, constrained pointwise by round-trip hypotheses in the theorems.
`base64` and UTF-8 are fully specified encodings and are implemented
concretely. -/

/-- Python strings as mappings: association list of key/value pairs. -/
abbrev SecretValues := List (String × String)

/-- Modelled from the spec: constant `TEXT_FIELD_MAX_LENGTH` from
`zenml.constants` — the fixed column capacity of the TEXT values column,
65535 bytes. -/
def TEXT_FIELD_MAX_LENGTH : Nat := 65535

/-- The base64 alphabet: 6-bit value → ASCII byte. -/
def b64char (v : Nat) : Nat :=
  if v < 26 then 65 + v
  else if v < 52 then 97 + (v - 26)
  else if v < 62 then 48 + (v - 52)
  else if v == 62 then 43
  else 47

/-- Inverse alphabet: ASCII byte → 6-bit value, `none` on a byte outside
the alphabet. -/
def b64val (c : Nat) : Option Nat :=
  if 65 ≤ c ∧ c ≤ 90 then some (c - 65)
  else if 97 ≤ c ∧ c ≤ 122 then some (c - 97 + 26)
  else if 48 ≤ c ∧ c ≤ 57 then some (c - 48 + 52)
  else if c == 43 then some 62
  else if c == 47 then some 63
  else none

/-- Models `base64.b64encode`: 3 input bytes → 4 alphabet bytes, with `=` (61)
padding for a 1- or 2-byte tail. -/
def b64encode : List Nat → List Nat
  | [] => []
  | [a] => [b64char (a / 4), b64char (a % 4 * 16), 61, 61]
  | [a, b] => [b64char (a / 4), b64char (a % 4 * 16 + b / 16), b64char (b % 16 * 4), 61]
  | a :: b :: c :: rest =>
    b64char (a / 4) :: b64char (a % 4 * 16 + b / 16) :: b64char (b % 16 * 4 + c / 64)
      :: b64char (c % 64) :: b64encode rest

/-- Models `base64.b64decode`: 4 alphabet bytes → 3 output bytes, with padding
handling for the final block; `none` on malformed input (the Python call
raises). -/
def b64decode : List Nat → Option (List Nat)
  | [] => some []
  | c1 :: c2 :: c3 :: c4 :: rest =>
    if rest = [] ∧ c3 = 61 ∧ c4 = 61 then do
      let v1 ← b64val c1
      let v2 ← b64val c2
      pure [v1 * 4 + v2 / 16]
    else if rest = [] ∧ c4 = 61 then do
      let v1 ← b64val c1
      let v2 ← b64val c2
      let v3 ← b64val c3
      pure [v1 * 4 + v2 / 16, v2 % 16 * 16 + v3 / 4]
    else do
      let v1 ← b64val c1
      let v2 ← b64val c2
      let v3 ← b64val c3
      let v4 ← b64val c4
      let tail ← b64decode rest
      pure ((v1 * 4 + v2 / 16) :: (v2 % 16 * 16 + v3 / 4) :: (v3 % 4 * 64 + v4) :: tail)
  | _ => none

/-- UTF-8 encoding of one code point (1 to 4 bytes). -/
def utf8EncodeChar (n : Nat) : List Nat :=
  if n < 128 then [n]
  else if n < 2048 then [192 + n / 64, 128 + n % 64]
  else if n < 65536 then [224 + n / 4096, 128 + n / 64 % 64, 128 + n % 64]
  else [240 + n / 262144, 128 + n / 4096 % 64, 128 + n / 64 % 64, 128 + n % 64]

/-- Models `str.encode("utf-8")`. -/
def strUtf8 (s : String) : List Nat :=
  s.toList.flatMap (fun c => utf8EncodeChar c.toNat)

mutual

/-- UTF-8 decoding to a code-point list; `none` on a malformed byte
sequence (the Python `bytes.decode()` raises).  The continuation-byte
handling of the 2-, 3- and 4-byte forms lives in one helper per form. -/
def utf8DecodeGo : List Nat → Option (List Nat)
  | [] => some []
  | b :: rest =>
    if b < 128 then (utf8DecodeGo rest).map (fun l => b :: l)
    else if b < 192 then none
    else if b < 224 then utf8DecodeTwo b rest
    else if b < 240 then utf8DecodeThree b rest
    else utf8DecodeFour b rest
termination_by l => (l.length, 1)

/-- Continuation of a 2-byte UTF-8 form. -/
def utf8DecodeTwo (b : Nat) : List Nat → Option (List Nat)
  | b2 :: rest =>
    if 128 ≤ b2 ∧ b2 < 192 then
      (utf8DecodeGo rest).map (fun l => ((b - 192) * 64 + (b2 - 128)) :: l)
    else none
  | [] => none
termination_by l => (l.length + 1, 0)

/-- Continuation of a 3-byte UTF-8 form. -/
def utf8DecodeThree (b : Nat) : List Nat → Option (List Nat)
  | b2 :: b3 :: rest =>
    if (128 ≤ b2 ∧ b2 < 192) ∧ (128 ≤ b3 ∧ b3 < 192) then
      (utf8DecodeGo rest).map (fun l =>
        ((b - 224) * 4096 + (b2 - 128) * 64 + (b3 - 128)) :: l)
    else none
  | _ => none
termination_by l => (l.length + 1, 0)

/-- Continuation of a 4-byte UTF-8 form. -/
def utf8DecodeFour (b : Nat) : List Nat → Option (List Nat)
  | b2 :: b3 :: b4 :: rest =>
    if ((128 ≤ b2 ∧ b2 < 192) ∧ (128 ≤ b3 ∧ b3 < 192)) ∧ (128 ≤ b4 ∧ b4 < 192) then
      (utf8DecodeGo rest).map (fun l =>
        ((b - 240) * 262144 + (b2 - 128) * 4096 + (b3 - 128) * 64 + (b4 - 128)) :: l)
    else none
  | _ => none
termination_by l => (l.length + 1, 0)

end

/-- Models `bytes.decode()`: UTF-8 bytes back to a string. -/
def utf8ToStr (bs : List Nat) : Option String :=
  (utf8DecodeGo bs).map (fun l => String.mk (l.map Char.ofNat))

/-- Embeds `SecretSchema._dump_secret_values`: serialize (`json.dumps`, passed in
as `jsonDumps`), then encrypt with the engine or base64-encode the UTF-8
bytes when no engine is configured, and fail with `ValueError` when the
encoded byte length exceeds `TEXT_FIELD_MAX_LENGTH`. -/
def dump_secret_values (jsonDumps : SecretValues → String) (values : SecretValues)
    (encryptionEngine : Option (String → List Nat)) : Except StoreError (List Nat) :=
  let serialized := jsonDumps values
  let encrypted := match encryptionEngine with
    | none => b64encode (strUtf8 serialized)
    | some enc => enc serialized
  if encrypted.length > TEXT_FIELD_MAX_LENGTH then
    .error (.valueError "database representation of secret values exceeds max length")
  else
    .ok encrypted

/-- Embeds `SecretSchema._load_secret_values`: decrypt with the engine or
base64-decode and UTF-8-decode when no engine is configured, then
deserialize (`json.loads`, passed in as `jsonLoads`). -/
def load_secret_values (jsonLoads : String → Option SecretValues)
    (encrypted : List Nat) (encryptionEngine : Option (List Nat → Option String)) :
    Option SecretValues :=
  let serialized := match encryptionEngine with
    | none => (b64decode encrypted).bind utf8ToStr
    | some dec => dec encrypted
  serialized.bind jsonLoads

/-! ## Round-trip lemmas for the byte-level codecs -/

/-- The base64 alphabet is decodable: `b64val` inverts `b64char` on 6-bit
values. -/
theorem b64val_b64char_fin : ∀ v : Fin 64, b64val (b64char v.val) = some v.val := by decide

/-- Lemma: `b64val` inverts `b64char`. -/
theorem b64val_b64char {v : Nat} (h : v < 64) : b64val (b64char v) = some v :=
  b64val_b64char_fin ⟨v, h⟩

/-- No alphabet byte is the padding byte `=` (61). -/
theorem b64char_ne_pad_fin : ∀ v : Fin 64, b64char v.val ≠ 61 := by decide

/-- No alphabet byte is the padding byte `=` (61). -/
theorem b64char_ne_pad {v : Nat} (h : v < 64) : b64char v ≠ 61 :=
  b64char_ne_pad_fin ⟨v, h⟩

/-- base64 round-trips on byte lists. -/
theorem b64decode_b64encode : ∀ l : List Nat, (∀ x ∈ l, x < 256) →
    b64decode (b64encode l) = some l
  | [], _ => rfl
  | [a], h => by
    have ha : a < 256 := h a (by simp)
    have h1 : a / 4 < 64 := by omega
    have h2 : a % 4 * 16 < 64 := by omega
    rw [b64encode, b64decode]
    rw [if_pos (show ([] : List Nat) = [] ∧ (61 : Nat) = 61 ∧ (61 : Nat) = 61 from ⟨rfl, rfl, rfl⟩), b64val_b64char h1, b64val_b64char h2]
    simp only [Option.bind_eq_bind, Option.some_bind, Option.pure_def, Option.some.injEq, List.cons.injEq, and_true]
    omega
  | [a, b], h => by
    have ha : a < 256 := h a (by simp)
    have hb : b < 256 := h b (by simp)
    have h1 : a / 4 < 64 := by omega
    have h2 : a % 4 * 16 + b / 16 < 64 := by omega
    have h3 : b % 16 * 4 < 64 := by omega
    rw [b64encode, b64decode]
    rw [if_neg (by rintro ⟨-, hq, -⟩; exact b64char_ne_pad h3 hq), if_pos (show ([] : List Nat) = [] ∧ (61 : Nat) = 61 from ⟨rfl, rfl⟩)]
    rw [b64val_b64char h1, b64val_b64char h2, b64val_b64char h3]
    simp only [Option.bind_eq_bind, Option.some_bind, Option.pure_def, Option.some.injEq, List.cons.injEq, and_true]
    exact ⟨by omega, by omega⟩
  | a :: b :: c :: rest, h => by
    have ha : a < 256 := h a (by simp)
    have hb : b < 256 := h b (by simp)
    have hc : c < 256 := h c (by simp)
    have h1 : a / 4 < 64 := by omega
    have h2 : a % 4 * 16 + b / 16 < 64 := by omega
    have h3 : b % 16 * 4 + c / 64 < 64 := by omega
    have h4 : c % 64 < 64 := by omega
    have ih := b64decode_b64encode rest (fun x hx => h x (by simp [hx]))
    rw [b64encode, b64decode]
    rw [if_neg (by rintro ⟨-, hq, -⟩; exact b64char_ne_pad h3 hq),
      if_neg (by rintro ⟨-, hq⟩; exact b64char_ne_pad h4 hq)]
    rw [b64val_b64char h1, b64val_b64char h2, b64val_b64char h3, b64val_b64char h4, ih]
    simp only [Option.bind_eq_bind, Option.some_bind, Option.pure_def, Option.some.injEq, List.cons.injEq, and_true]
    exact ⟨by omega, by omega, by omega⟩

/-- Every code point of a `Char` is below 0x110000. -/
theorem char_toNat_lt (c : Char) : c.toNat < 1114112 := by
  rcases c.valid with h | ⟨-, h⟩
  · exact Nat.lt_trans h (by norm_num)
  · exact h

/-- UTF-8 bytes are bytes. -/
theorem utf8EncodeChar_lt_256 {n : Nat} (hn : n < 1114112) :
    ∀ x ∈ utf8EncodeChar n, x < 256 := by
  intro x hx
  unfold utf8EncodeChar at hx
  split at hx
  · simp at hx; omega
  · split at hx
    · simp at hx; rcases hx with hx | hx <;> omega
    · split at hx
      · simp at hx; rcases hx with hx | hx | hx <;> omega
      · simp at hx; rcases hx with hx | hx | hx | hx <;> omega

/-- Decoding after an encoded character resumes cleanly: prepending the
UTF-8 bytes of a valid code point prepends that code point. -/
theorem utf8DecodeGo_encodeChar {n : Nat} (hn : n < 1114112) (rest : List Nat) :
    utf8DecodeGo (utf8EncodeChar n ++ rest) =
      (utf8DecodeGo rest).map (fun l => n :: l) := by
  unfold utf8EncodeChar
  by_cases hsmall : n < 128
  · rw [if_pos hsmall]
    show utf8DecodeGo (n :: rest) = _
    rw [utf8DecodeGo, if_pos hsmall]
  · rw [if_neg hsmall]
    by_cases h2 : n < 2048
    · rw [if_pos h2]
      show utf8DecodeGo ((192 + n / 64) :: (128 + n % 64) :: rest) = _
      rw [utf8DecodeGo]
      rw [if_neg (by omega), if_neg (by omega), if_pos (by omega)]
      rw [utf8DecodeTwo, if_pos (by omega)]
      have he : (192 + n / 64 - 192) * 64 + (128 + n % 64 - 128) = n := by omega
      rw [he]
    · rw [if_neg h2]
      by_cases h3 : n < 65536
      · rw [if_pos h3]
        show utf8DecodeGo ((224 + n / 4096) :: (128 + n / 64 % 64) :: (128 + n % 64)
          :: rest) = _
        rw [utf8DecodeGo]
        rw [if_neg (by omega), if_neg (by omega), if_neg (by omega), if_pos (by omega)]
        rw [utf8DecodeThree, if_pos (by exact ⟨⟨by omega, by omega⟩, by omega, by omega⟩)]
        have he : (224 + n / 4096 - 224) * 4096 + (128 + n / 64 % 64 - 128) * 64
            + (128 + n % 64 - 128) = n := by omega
        rw [he]
      · rw [if_neg h3]
        show utf8DecodeGo ((240 + n / 262144) :: (128 + n / 4096 % 64)
          :: (128 + n / 64 % 64) :: (128 + n % 64) :: rest) = _
        rw [utf8DecodeGo]
        rw [if_neg (by omega), if_neg (by omega), if_neg (by omega), if_neg (by omega)]
        rw [utf8DecodeFour,
          if_pos (by exact ⟨⟨⟨by omega, by omega⟩, by omega, by omega⟩, by omega, by omega⟩)]
        have he : (240 + n / 262144 - 240) * 262144 + (128 + n / 4096 % 64 - 128) * 4096
            + (128 + n / 64 % 64 - 128) * 64 + (128 + n % 64 - 128) = n := by omega
        rw [he]

/-- UTF-8 round-trips on the code-point lists of characters. -/
theorem utf8DecodeGo_flatMap (cs : List Char) :
    utf8DecodeGo (cs.flatMap (fun c => utf8EncodeChar c.toNat)) =
      some (cs.map Char.toNat) := by
  induction cs with
  | nil =>
    rw [List.flatMap_nil, utf8DecodeGo]
    rfl
  | cons c cs ih =>
    rw [List.flatMap_cons, utf8DecodeGo_encodeChar (char_toNat_lt c), ih]
    rfl

/-- UTF-8 round-trips on strings. -/
theorem utf8ToStr_strUtf8 (s : String) : utf8ToStr (strUtf8 s) = some s := by
  unfold utf8ToStr strUtf8
  rw [utf8DecodeGo_flatMap]
  simp only [Option.map_some', Option.some.injEq, List.map_map]
  have hmap : (Char.ofNat ∘ Char.toNat) = id := by
    funext c
    exact Char.ofNat_toNat c
  rw [hmap, List.map_id]
  cases s
  rfl

/-- Every byte of an encoded string is a byte. -/
theorem strUtf8_lt_256 (s : String) : ∀ x ∈ strUtf8 s, x < 256 := by
  intro x hx
  unfold strUtf8 at hx
  rcases List.mem_flatMap.mp hx with ⟨c, -, hc⟩
  exact utf8EncodeChar_lt_256 (char_toNat_lt c) x hc

/-! ## Generic helper lemmas -/

/-- Bind reduction for `Except` on a success value. -/
theorem exceptBind_ok {ε α β : Type} (a : α) (f : α → Except ε β) :
    (Except.ok a >>= f) = f a := rfl

/-- Bind reduction for `Except` on an error value. -/
theorem exceptBind_error {ε α β : Type} (e : ε) (f : α → Except ε β) :
    ((Except.error e : Except ε α) >>= f) = .error e := rfl

/-- A member satisfying the predicate makes `find?` return something. -/
theorem find?_exists_some {α : Type} {l : List α} {p : α → Bool}
    (h : ∃ x ∈ l, p x = true) : ∃ y, l.find? p = some y := by
  cases hf : l.find? p with
  | none =>
    obtain ⟨x, hx, hp⟩ := h
    rw [List.find?_eq_none] at hf
    exact absurd hp (by simpa using hf x hx)
  | some y => exact ⟨y, rfl⟩

/-- A member satisfying the predicate makes `find?` succeed. -/
theorem find?_isSome_of_mem {α : Type} {l : List α} {p : α → Bool} {x : α}
    (hx : x ∈ l) (hp : p x = true) : (l.find? p).isSome = true :=
  List.find?_isSome.mpr ⟨x, hx, hp⟩

/-- Lemma: `find?` misses when no member satisfies the predicate. -/
theorem find?_eq_none_of_all {α : Type} {l : List α} {p : α → Bool}
    (h : ∀ x ∈ l, p x = false) : l.find? p = none :=
  List.find?_eq_none.mpr (fun x hx => by simp [h x hx])

/-! ## No-op and frame lemmas for the lineage edge setters -/

/-- Re-asserting an input edge that already exists — under any supplied
name — is a no-op. -/
theorem set_input_existing_noop (db : StoreState) (sid aid : Nat) (nm : String)
    (hstep : ∃ st ∈ db.stepRuns, st.id = sid)
    (hart : ∃ a ∈ db.artifacts, a.id = aid)
    (hedge : ∃ e ∈ db.stepInputs, e.stepRunId = sid ∧ e.artifactId = aid) :
    set_run_step_input_artifact db sid aid nm = .ok db := by
  obtain ⟨st, hstm, hstid⟩ := hstep
  obtain ⟨ar, harm, harid⟩ := hart
  obtain ⟨e, hem, hes, hea⟩ := hedge
  obtain ⟨v1, hv1⟩ := find?_exists_some (p := fun st => st.id == sid)
    ⟨st, hstm, by simp [hstid]⟩
  obtain ⟨v2, hv2⟩ := find?_exists_some (p := fun a => a.id == aid)
    ⟨ar, harm, by simp [harid]⟩
  obtain ⟨v3, hv3⟩ := find?_exists_some
    (p := fun e => e.stepRunId == sid && e.artifactId == aid)
    ⟨e, hem, by simp [hes, hea]⟩
  unfold set_run_step_input_artifact
  rw [hv1, hv2, hv3]
  rfl

/-- Re-asserting an output edge that already exists — under any supplied
name — is a no-op. -/
theorem set_output_existing_noop (db : StoreState) (sid aid : Nat) (nm : String)
    (hstep : ∃ st ∈ db.stepRuns, st.id = sid)
    (hart : ∃ a ∈ db.artifacts, a.id = aid)
    (hedge : ∃ e ∈ db.stepOutputs, e.stepRunId = sid ∧ e.artifactId = aid) :
    set_run_step_output_artifact db sid aid nm = .ok db := by
  obtain ⟨st, hstm, hstid⟩ := hstep
  obtain ⟨ar, harm, harid⟩ := hart
  obtain ⟨e, hem, hes, hea⟩ := hedge
  obtain ⟨v1, hv1⟩ := find?_exists_some (p := fun st => st.id == sid)
    ⟨st, hstm, by simp [hstid]⟩
  obtain ⟨v2, hv2⟩ := find?_exists_some (p := fun a => a.id == aid)
    ⟨ar, harm, by simp [harid]⟩
  obtain ⟨v3, hv3⟩ := find?_exists_some
    (p := fun e => e.stepRunId == sid && e.artifactId == aid)
    ⟨e, hem, by simp [hes, hea]⟩
  unfold set_run_step_output_artifact
  rw [hv1, hv2, hv3]
  rfl

/-- Re-asserting a parent edge that already exists is a no-op. -/
theorem set_parent_existing_noop (db : StoreState) (childId parentId : Nat)
    (hchild : ∃ st ∈ db.stepRuns, st.id = childId)
    (hparent : ∃ st ∈ db.stepRuns, st.id = parentId)
    (hedge : ∃ e ∈ db.stepParents, e.childId = childId ∧ e.parentId = parentId) :
    set_run_step_parent_step db childId parentId = .ok db := by
  obtain ⟨st, hstm, hstid⟩ := hchild
  obtain ⟨pt, hptm, hptid⟩ := hparent
  obtain ⟨e, hem, hec, hep⟩ := hedge
  obtain ⟨v1, hv1⟩ := find?_exists_some (p := fun st => st.id == childId)
    ⟨st, hstm, by simp [hstid]⟩
  obtain ⟨v2, hv2⟩ := find?_exists_some (p := fun st => st.id == parentId)
    ⟨pt, hptm, by simp [hptid]⟩
  obtain ⟨v3, hv3⟩ := find?_exists_some
    (p := fun e => e.childId == childId && e.parentId == parentId)
    ⟨e, hem, by simp [hec, hep]⟩
  unfold set_run_step_parent_step
  rw [hv1, hv2, hv3]
  rfl

/-! ## Claim C10 -/

/-- Claim C10: The idempotency check of `_set_run_step_input_artifact` and
`_set_run_step_output_artifact` matches only on the (step run id, artifact
id) pair and ignores the supplied name: linking an artifact already linked
to the same step run — under ANY name, in particular a different one —
returns with the store untouched (edge tables unchanged, originally stored
names kept) and raises no error. -/
theorem C10_edge_idempotency_ignores_name (db : StoreState) (sid aid : Nat)
    (nmIn nmOut : String)
    (hstep : ∃ st ∈ db.stepRuns, st.id = sid)
    (hart : ∃ a ∈ db.artifacts, a.id = aid)
    (hin : ∃ e ∈ db.stepInputs, e.stepRunId = sid ∧ e.artifactId = aid)
    (hout : ∃ e ∈ db.stepOutputs, e.stepRunId = sid ∧ e.artifactId = aid) :
    set_run_step_input_artifact db sid aid nmIn = .ok db ∧
    set_run_step_output_artifact db sid aid nmOut = .ok db :=
  ⟨set_input_existing_noop db sid aid nmIn hstep hart hin,
   set_output_existing_noop db sid aid nmOut hstep hart hout⟩

/-- Demo state for the lineage-graph claims: one pipeline run (id 100),
step 1 (failed) and step 2 (cached), one artifact (id 5) recorded as output
of both steps and as input of step 2, and a parent edge 1 → 2. -/
def dbLineage : StoreState :=
  { projects := [⟨1, "default"⟩]
    users := [⟨2, "alice"⟩]
    runs := [⟨100, "run-1", 1, none, none⟩]
    stepRuns := [⟨1, "s1", 100, .failed, "k1"⟩, ⟨2, "s2", 100, .cached, "k2"⟩]
    stepParents := [⟨1, 2⟩]
    stepInputs := [⟨2, 5, "in"⟩]
    stepOutputs := [⟨2, 5, "out"⟩, ⟨1, 5, "out"⟩]
    artifacts := [⟨5, "s3://a"⟩] }

/-- Witness for C10: re-linking artifact 5 to step 2 under the fresh names
"other-in"/"other-out" leaves the store exactly as it was. -/
theorem C10_witness :
    set_run_step_input_artifact dbLineage 2 5 "other-in" = .ok dbLineage ∧
    set_run_step_output_artifact dbLineage 2 5 "other-out" = .ok dbLineage :=
  C10_edge_idempotency_ignores_name dbLineage 2 5 "other-in" "other-out"
    ⟨⟨2, "s2", 100, .cached, "k2"⟩, by simp [dbLineage], rfl⟩
    ⟨⟨5, "s3://a"⟩, by simp [dbLineage], rfl⟩
    ⟨⟨2, 5, "in"⟩, by simp [dbLineage], rfl, rfl⟩
    ⟨⟨2, 5, "out"⟩, by simp [dbLineage], rfl, rfl⟩

/-- The output loop is a no-op when every payload edge already exists. -/
theorem setOutputsFold_noop (sid : Nat) :
    ∀ (outs : List (String × Nat)) (db : StoreState),
    (∃ st ∈ db.stepRuns, st.id = sid) →
    (∀ p ∈ outs, (∃ a ∈ db.artifacts, a.id = p.2) ∧
      ∃ e ∈ db.stepOutputs, e.stepRunId = sid ∧ e.artifactId = p.2) →
    setOutputsFold db sid outs = .ok db := by
  intro outs
  induction outs with
  | nil => intro db _ _; rfl
  | cons p rest ih =>
    intro db hstep h
    obtain ⟨n, aid⟩ := p
    have hp := h (n, aid) (by simp)
    have hset := set_output_existing_noop db sid aid n hstep hp.1 hp.2
    unfold setOutputsFold
    rw [hset, exceptBind_ok]
    exact ih db hstep (fun q hq => h q (by simp [hq]))

/-! ## Claim C6 -/

/-- Claim C6: Re-asserting an existing parent-step, input-artifact or
output-artifact edge raises no error and leaves the corresponding edge
table (indeed the whole store) unchanged: shown for the three `_set_...`
helpers through which both `create_run_step` and `update_run_step` insert
edges, and end-to-end for `update_run_step`, which re-processes the output
mapping of its payload — a payload all of whose output edges already exist
commits with every edge table exactly as it was. -/
theorem C6_reassert_edges_noop (db : StoreState) (childId parentId sid aid : Nat)
    (nmIn nmOut : String) (m : StepRunModel)
    (hchild : ∃ st ∈ db.stepRuns, st.id = childId)
    (hparent : ∃ st ∈ db.stepRuns, st.id = parentId)
    (hpedge : ∃ e ∈ db.stepParents, e.childId = childId ∧ e.parentId = parentId)
    (hstep : ∃ st ∈ db.stepRuns, st.id = sid)
    (hart : ∃ a ∈ db.artifacts, a.id = aid)
    (hiedge : ∃ e ∈ db.stepInputs, e.stepRunId = sid ∧ e.artifactId = aid)
    (hoedge : ∃ e ∈ db.stepOutputs, e.stepRunId = sid ∧ e.artifactId = aid)
    (hm : ∃ st ∈ db.stepRuns, st.id = m.id)
    (hmouts : ∀ p ∈ m.outputArtifacts, (∃ a ∈ db.artifacts, a.id = p.2) ∧
      ∃ e ∈ db.stepOutputs, e.stepRunId = m.id ∧ e.artifactId = p.2) :
    set_run_step_parent_step db childId parentId = .ok db ∧
    set_run_step_input_artifact db sid aid nmIn = .ok db ∧
    set_run_step_output_artifact db sid aid nmOut = .ok db ∧
    ((update_run_step db m).result.isOk = true ∧
      (update_run_step db m).db.stepParents = db.stepParents ∧
      (update_run_step db m).db.stepInputs = db.stepInputs ∧
      (update_run_step db m).db.stepOutputs = db.stepOutputs) := by
  refine ⟨set_parent_existing_noop db childId parentId hchild hparent hpedge,
    set_input_existing_noop db sid aid nmIn hstep hart hiedge,
    set_output_existing_noop db sid aid nmOut hstep hart hoedge, ?_⟩
  obtain ⟨stm, hstm, hstmid⟩ := hm
  obtain ⟨v1, hv1⟩ := find?_exists_some (p := fun st => st.id == m.id)
    ⟨stm, hstm, by simp [hstmid]⟩
  have hstep' : ∃ st ∈ (applyStepRunUpdate db m).stepRuns, st.id = m.id := by
    refine ⟨if stm.id == m.id then ⟨stm.id, stm.name, stm.pipelineRunId, m.status, m.cacheKey⟩
      else stm, ?_, ?_⟩
    · unfold applyStepRunUpdate
      simp only
      exact List.mem_map.mpr ⟨stm, hstm, rfl⟩
    · split <;> simp [hstmid]
  have hfold : setOutputsFold (applyStepRunUpdate db m) m.id m.outputArtifacts
      = .ok (applyStepRunUpdate db m) := by
    refine setOutputsFold_noop m.id m.outputArtifacts _ hstep' ?_
    intro p hp
    exact (hmouts p hp)
  unfold update_run_step run1
  rw [hv1]
  simp only [Option.isNone_some, Bool.false_eq_true, if_false, hfold, exceptBind_ok]
  exact ⟨rfl, rfl, rfl, rfl⟩

/-- Witness for C6: on `dbLineage`, re-asserting the parent edge 1 → 2, the
input edge (2, 5) and the output edge (2, 5), and re-sending step 2's
existing output through `update_run_step`, all leave the store unchanged. -/
theorem C6_witness :
    set_run_step_parent_step dbLineage 2 1 = .ok dbLineage ∧
    set_run_step_input_artifact dbLineage 2 5 "in" = .ok dbLineage ∧
    set_run_step_output_artifact dbLineage 2 5 "out" = .ok dbLineage ∧
    ((update_run_step dbLineage ⟨2, "s2", 100, .cached, "k2", [1], [("in", 5)],
        [("out", 5)]⟩).result.isOk = true ∧
      (update_run_step dbLineage ⟨2, "s2", 100, .cached, "k2", [1], [("in", 5)],
        [("out", 5)]⟩).db.stepParents = dbLineage.stepParents ∧
      (update_run_step dbLineage ⟨2, "s2", 100, .cached, "k2", [1], [("in", 5)],
        [("out", 5)]⟩).db.stepInputs = dbLineage.stepInputs ∧
      (update_run_step dbLineage ⟨2, "s2", 100, .cached, "k2", [1], [("in", 5)],
        [("out", 5)]⟩).db.stepOutputs = dbLineage.stepOutputs) :=
  C6_reassert_edges_noop dbLineage 2 1 2 5 "in" "out"
    ⟨2, "s2", 100, .cached, "k2", [1], [("in", 5)], [("out", 5)]⟩
    ⟨⟨2, "s2", 100, .cached, "k2"⟩, by simp [dbLineage], rfl⟩
    ⟨⟨1, "s1", 100, .failed, "k1"⟩, by simp [dbLineage], rfl⟩
    ⟨⟨1, 2⟩, by simp [dbLineage], rfl, rfl⟩
    ⟨⟨2, "s2", 100, .cached, "k2"⟩, by simp [dbLineage], rfl⟩
    ⟨⟨5, "s3://a"⟩, by simp [dbLineage], rfl⟩
    ⟨⟨2, 5, "in"⟩, by simp [dbLineage], rfl, rfl⟩
    ⟨⟨2, 5, "out"⟩, by simp [dbLineage], rfl, rfl⟩
    ⟨⟨2, "s2", 100, .cached, "k2"⟩, by simp [dbLineage], rfl⟩
    (by
      intro p hp
      simp only [List.mem_singleton] at hp
      subst hp
      exact ⟨⟨⟨5, "s3://a"⟩, by simp [dbLineage], rfl⟩,
        ⟨⟨2, 5, "out"⟩, by simp [dbLineage], rfl, rfl⟩⟩)

/-- Effect shape of one output-edge insertion: only the output table can
change, and the only possible change is appending the one new edge. -/
theorem set_output_effect {db db' : StoreState} {sid aid : Nat} {nm : String}
    (h : set_run_step_output_artifact db sid aid nm = .ok db') :
    db'.stepParents = db.stepParents ∧ db'.stepInputs = db.stepInputs ∧
    db'.stepRuns = db.stepRuns ∧ db'.artifacts = db.artifacts ∧
    (db'.stepOutputs = db.stepOutputs ∨
      (db'.stepOutputs = db.stepOutputs ++ [⟨sid, aid, nm⟩] ∧
        ∀ e ∈ db.stepOutputs, ¬(e.stepRunId = sid ∧ e.artifactId = aid))) := by
  unfold set_run_step_output_artifact at h
  split at h
  · exact absurd h (by simp [throw, throwThe, MonadExceptOf.throw])
  · split at h
    · exact absurd h (by simp [throw, throwThe, MonadExceptOf.throw])
    · rename_i hfind
      split at h
      · rename_i hedge
        have hdb : db' = db := by
          simpa [pure, Except.pure] using h.symm
        subst hdb
        exact ⟨rfl, rfl, rfl, rfl, Or.inl rfl⟩
      · rename_i hedge
        have hdb : db' = { db with stepOutputs := db.stepOutputs ++ [⟨sid, aid, nm⟩] } := by
          simpa [pure, Except.pure] using h.symm
        subst hdb
        refine ⟨rfl, rfl, rfl, rfl, Or.inr ⟨rfl, ?_⟩⟩
        intro e he ⟨h1, h2⟩
        have : (db.stepOutputs.find? fun e =>
            e.stepRunId == sid && e.artifactId == aid).isSome = true :=
          find?_isSome_of_mem he (by simp [h1, h2])
        simp [this] at hedge

/-- Effect shape of the whole output loop: the other tables never change,
and the output table only grows, by fresh payload edges. -/
theorem setOutputsFold_effect (sid : Nat) :
    ∀ (outs : List (String × Nat)) (db db' : StoreState),
    setOutputsFold db sid outs = .ok db' →
    db'.stepParents = db.stepParents ∧ db'.stepInputs = db.stepInputs ∧
    db'.stepRuns = db.stepRuns ∧ db'.artifacts = db.artifacts ∧
    ∃ extra, db'.stepOutputs = db.stepOutputs ++ extra ∧
      ∀ e ∈ extra, (∃ p ∈ outs, e = ⟨sid, p.2, p.1⟩) ∧
        ∀ e0 ∈ db.stepOutputs, ¬(e0.stepRunId = e.stepRunId ∧ e0.artifactId = e.artifactId) := by
  intro outs
  induction outs with
  | nil =>
    intro db db' h
    have hdb : db' = db := by
      simpa [setOutputsFold, pure, Except.pure] using h.symm
    subst hdb
    exact ⟨rfl, rfl, rfl, rfl, [], by simp⟩
  | cons p rest ih =>
    intro db db' h
    obtain ⟨n, aid⟩ := p
    unfold setOutputsFold at h
    cases hset : set_run_step_output_artifact db sid aid n with
    | error e =>
      rw [hset, exceptBind_error] at h
      exact absurd h (by simp)
    | ok db1 =>
      rw [hset, exceptBind_ok] at h
      obtain ⟨hp1, hi1, hs1, ha1, ho1⟩ := set_output_effect hset
      obtain ⟨hp2, hi2, hs2, ha2, extra, hext, hfresh⟩ := ih db1 db' h
      refine ⟨hp2.trans hp1, hi2.trans hi1, hs2.trans hs1, ha2.trans ha1, ?_⟩
      rcases ho1 with ho1 | ⟨ho1, hnew⟩
      · refine ⟨extra, by rw [hext, ho1], ?_⟩
        intro e he
        obtain ⟨⟨q, hq, hqe⟩, hfr⟩ := hfresh e he
        refine ⟨⟨q, by simp [hq], hqe⟩, ?_⟩
        intro e0 he0
        exact hfr e0 (by rw [ho1]; exact he0)
      · refine ⟨⟨sid, aid, n⟩ :: extra, ?_, ?_⟩
        · rw [hext, ho1, List.append_assoc]
          rfl
        · intro e he
          rcases List.mem_cons.mp he with he | he
          · subst he
            exact ⟨⟨(n, aid), by simp, rfl⟩, fun e0 he0 hq => hnew e0 he0 hq⟩
          · obtain ⟨⟨q, hq, hqe⟩, hfr⟩ := hfresh e he
            refine ⟨⟨q, by simp [hq], hqe⟩, ?_⟩
            intro e0 he0
            exact hfr e0 (by rw [ho1]; simp [he0])

/-! ## Claim C7 -/

/-- Claim C7: For every call to `update_run_step` — succeeding or failing,
and whatever `parent_step_ids` and `input_artifacts` the payload supplies —
the committed parent-step and input-artifact edge tables are left exactly
unchanged; the output-artifact table at most grows, by edges of the payload
whose (step run id, artifact id) pair was not yet present. -/
theorem C7_update_run_step_frame (db : StoreState) (m : StepRunModel) :
    (update_run_step db m).db.stepParents = db.stepParents ∧
    (update_run_step db m).db.stepInputs = db.stepInputs ∧
    ∃ extra, (update_run_step db m).db.stepOutputs = db.stepOutputs ++ extra ∧
      ∀ e ∈ extra, (∃ p ∈ m.outputArtifacts, e = ⟨m.id, p.2, p.1⟩) ∧
        ∀ e0 ∈ db.stepOutputs, ¬(e0.stepRunId = e.stepRunId ∧ e0.artifactId = e.artifactId) := by
  unfold update_run_step run1
  cases hfind : db.stepRuns.find? (fun st => st.id == m.id) with
  | none =>
    simp only [Option.isNone_none, if_true]
    exact ⟨trivial, trivial, [], by simp, by simp⟩
  | some v =>
    simp only [Option.isNone_some, Bool.false_eq_true, if_false]
    cases hfold : setOutputsFold (applyStepRunUpdate db m) m.id m.outputArtifacts with
    | error e =>
      rw [exceptBind_error]
      exact ⟨rfl, rfl, [], by simp, by simp⟩
    | ok db2 =>
      rw [exceptBind_ok]
      obtain ⟨hp, hi, -, -, extra, hext, hfresh⟩ := setOutputsFold_effect m.id
        m.outputArtifacts (applyStepRunUpdate db m) db2 hfold
      have happly : (applyStepRunUpdate db m).stepParents = db.stepParents ∧
          (applyStepRunUpdate db m).stepInputs = db.stepInputs ∧
          (applyStepRunUpdate db m).stepOutputs = db.stepOutputs := ⟨rfl, rfl, rfl⟩
      refine ⟨hp.trans happly.1, hi.trans happly.2.1, extra, ?_, ?_⟩
      · show db2.stepOutputs = db.stepOutputs ++ extra
        rw [hext, happly.2.2]
      · intro e he
        obtain ⟨hq, hfr⟩ := hfresh e he
        exact ⟨hq, fun e0 he0 => hfr e0 (by rw [happly.2.2]; exact he0)⟩

/-- Witness for C7: on `dbLineage`, an update of step 2 that (vainly)
supplies a different parent list and input mapping plus one genuinely new
output edge leaves parents and inputs untouched. -/
theorem C7_witness :
    (update_run_step dbLineage
        ⟨2, "s2", 100, .completed, "k2", [7, 8], [("bogus", 9)],
          [("out", 5)]⟩).db.stepParents = dbLineage.stepParents ∧
    (update_run_step dbLineage
        ⟨2, "s2", 100, .completed, "k2", [7, 8], [("bogus", 9)],
          [("out", 5)]⟩).db.stepInputs = dbLineage.stepInputs :=
  ⟨(C7_update_run_step_frame dbLineage _).1, (C7_update_run_step_frame dbLineage _).2.1⟩

/-! ## Claim C5 -/

/-- Claim C5: `get_artifact_producer_step` returns a step run that has an
output-artifact edge to the requested artifact and whose status is not
`cached`, and it fails with `KeyError` (NotFound) exactly when no output
edge from a non-cached step exists.  (Step-run ids are assumed unique, as
guaranteed by the id-uniqueness guard at write time.) -/
theorem C5_producer_step_excludes_cached (db : StoreState) (aid : Nat)
    (hnodup : (db.stepRuns.map (fun st => st.id)).Nodup) :
    (∀ st, get_artifact_producer_step db aid = .ok st →
      (∃ e ∈ db.stepOutputs, e.artifactId = aid ∧ e.stepRunId = st.id) ∧
        st.status ≠ .cached) ∧
    ((∃ msg, get_artifact_producer_step db aid = .error (.keyError msg)) ↔
      ¬ ∃ e ∈ db.stepOutputs, e.artifactId = aid ∧
          ∃ st ∈ db.stepRuns, st.id = e.stepRunId ∧ st.status ≠ .cached) := by
  cases hfind : db.stepOutputs.find? (fun e =>
      e.artifactId == aid
        && (db.stepRuns.find? (fun st =>
              st.id == e.stepRunId && st.status != ExecutionStatus.cached)).isSome) with
  | none =>
    have hres : get_artifact_producer_step db aid
        = .error (.keyError "no producer step found for artifact") := by
      unfold get_artifact_producer_step
      rw [hfind]
    have hall := List.find?_eq_none.mp hfind
    constructor
    · intro st hst
      rw [hres] at hst
      exact absurd hst (by simp)
    · constructor
      · rintro - ⟨e, he, hea, st, hstm, hsti, hstc⟩
        have hinner : (db.stepRuns.find? (fun st =>
            st.id == e.stepRunId && st.status != ExecutionStatus.cached)).isSome = true :=
          find?_isSome_of_mem hstm (by simp [hsti, hstc])
        exact hall e he (by simp [hea, hinner])
      · intro h
        exact ⟨"no producer step found for artifact", hres⟩
  | some e =>
    have hmem := List.mem_of_find?_eq_some hfind
    have hpred := List.find?_some hfind
    rw [Bool.and_eq_true] at hpred
    have hea : e.artifactId = aid := by simpa using hpred.1
    obtain ⟨st0, hst0⟩ := Option.isSome_iff_exists.mp hpred.2
    have hst0m := List.mem_of_find?_eq_some hst0
    have hst0p := List.find?_some hst0
    rw [Bool.and_eq_true] at hst0p
    have hst0id : st0.id = e.stepRunId := by simpa using hst0p.1
    have hst0st : st0.status ≠ .cached := by simpa using hst0p.2
    obtain ⟨st1, hst1⟩ := find?_exists_some (p := fun s => s.id == e.stepRunId)
      ⟨st0, hst0m, by simp [hst0id]⟩
    have hst1m := List.mem_of_find?_eq_some hst1
    have hst1id : st1.id = e.stepRunId := by simpa using List.find?_some hst1
    have heq : st1 = st0 :=
      List.inj_on_of_nodup_map hnodup hst1m hst0m (hst1id.trans hst0id.symm)
    have hres : get_artifact_producer_step db aid = .ok (runStepSchemaToModel db st1) := by
      unfold get_artifact_producer_step
      rw [hfind]
      show get_run_step db e.stepRunId = _
      unfold get_run_step
      rw [hst1]
    constructor
    · intro st hst
      rw [hres] at hst
      have hmodel : runStepSchemaToModel db st1 = st := by simpa using hst
      subst hmodel
      refine ⟨⟨e, hmem, hea, ?_⟩, ?_⟩
      · simp [runStepSchemaToModel, stepRunRowToModel, hst1id]
      · simp only [runStepSchemaToModel, stepRunRowToModel]
        rw [heq]
        exact hst0st
    · constructor
      · rintro ⟨msg, hmsg⟩
        rw [hres] at hmsg
        exact absurd hmsg (by simp)
      · intro h
        exact absurd ⟨e, hmem, hea, st0, hst0m, hst0id, hst0st⟩ h

/-- Witness for C5: on `dbLineage`, artifact 5 is an output of failed step
1 and of cached step 2; the query returns step 1, which indeed carries an
output edge to artifact 5 and is not cached. -/
theorem C5_witness :
    (∃ e ∈ dbLineage.stepOutputs, e.artifactId = 5 ∧
      e.stepRunId = (⟨1, "s1", 100, .failed, "k1", [], [], [("out", 5)]⟩ : StepRunModel).id) ∧
    (⟨1, "s1", 100, .failed, "k1", [], [], [("out", 5)]⟩ : StepRunModel).status ≠ .cached :=
  (C5_producer_step_excludes_cached dbLineage 5 (by decide)).1 _ rfl

/-! ## Claim C2 -/

/-- Reduction of `run1` on a raised error. -/
theorem run1_throw {α : Type} (db : StoreState) (e : StoreError) :
    run1 db (throw e : Except StoreError (α × StoreState)) = ⟨.error e, db, 0⟩ := rfl

/-- Reduction of `run1` on a normal return. -/
theorem run1_pure {α : Type} (db db' : StoreState) (a : α) :
    run1 db (pure (a, db')) = ⟨.ok a, db', 1⟩ := rfl

/-- Bind reduction for `Except` on `pure`. -/
theorem exceptPure_bind {ε α β : Type} (a : α) (f : α → Except ε β) :
    ((pure a : Except ε α) >>= f) = f a := rfl

/-- Map reduction for `Except` on a success value. -/
theorem exceptMap_ok {ε α β : Type} (a : α) (f : α → β) :
    ((Except.ok a : Except ε α).map f) = .ok (f a) := rfl

/-- Demo state for the role-assignment claims: role 3, user 2, team 4,
project 1, and a single PROJECT-SCOPED assignment of role 3 to user 2 in
project 1.  No global assignment exists. -/
def dbAssign : StoreState :=
  { projects := [⟨1, "p"⟩]
    users := [⟨2, "u"⟩]
    teams := [⟨4, "t"⟩]
    roles := [⟨3, "r"⟩]
    userRoleAssignments := [⟨3, 2, some 1⟩] }

/-- Claim C2, counterexample: The claim says a global `assign_role` (project
omitted) fails with AlreadyExists only when an identical *global*
assignment exists.  On `dbAssign` the only stored assignment of role 3 to
user 2 is project-scoped — yet the global assign fails with AlreadyExists,
because the code omits the project predicate entirely when no project
argument is supplied. -/
theorem C2_counterexample :
    (assign_role_to_user dbAssign (.byId 3) (.byId 2) none).result
      = .error (.entityExists "role already assigned to user in this project") ∧
    dbAssign.userRoleAssignments.all (fun a => a.projectId != none) = true :=
  ⟨rfl, rfl⟩

/-- Claim C2, amended: `assign_role` fails with AlreadyExists iff an
assignment with the same role and subject exists AND, when a project
argument is supplied, that assignment is scoped to exactly that project
(an existing global assignment does not block a project-scoped assign);
when the project argument is omitted, ANY existing assignment of that role
to that subject — global or project-scoped — causes the failure. -/
theorem C2_amended (db : StoreState) (role user team x : NameOrId)
    (r : RoleRow) (u : UserRow) (t : TeamRow) (pr : ProjectRow)
    (hr : getRoleSchema db role = .ok r)
    (hu : getUserSchema db user = .ok u)
    (ht : getTeamSchema db team = .ok t)
    (hp : getProjectSchema db x = .ok pr) :
    ((∃ msg, (assign_role_to_user db role user none).result
        = .error (.entityExists msg)) ↔
      ∃ a ∈ db.userRoleAssignments, a.userId = u.id ∧ a.roleId = r.id) ∧
    ((∃ msg, (assign_role_to_user db role user (some x)).result
        = .error (.entityExists msg)) ↔
      ∃ a ∈ db.userRoleAssignments, a.userId = u.id ∧ a.roleId = r.id
        ∧ a.projectId = some pr.id) ∧
    ((∃ msg, (assign_role_to_team db role team none).result
        = .error (.entityExists msg)) ↔
      ∃ a ∈ db.teamRoleAssignments, a.teamId = t.id ∧ a.roleId = r.id) ∧
    ((∃ msg, (assign_role_to_team db role team (some x)).result
        = .error (.entityExists msg)) ↔
      ∃ a ∈ db.teamRoleAssignments, a.teamId = t.id ∧ a.roleId = r.id
        ∧ a.projectId = some pr.id) := by
  refine ⟨?_, ?_, ?_, ?_⟩
  · cases hfind : db.userRoleAssignments.find? (fun a =>
        a.userId == u.id && a.roleId == r.id) with
    | some v =>
      have hres : assign_role_to_user db role user none
          = ⟨.error (.entityExists "role already assigned to user in this project"),
            db, 0⟩ := by
        unfold assign_role_to_user
        simp only [hr, hu, exceptBind_ok, exceptPure_bind, hfind, Option.isSome_some,
          if_true, run1_throw]
      rw [hres]
      have hv := List.find?_some hfind
      rw [Bool.and_eq_true] at hv
      exact iff_of_true ⟨_, rfl⟩
        ⟨v, List.mem_of_find?_eq_some hfind, by simpa using hv.1, by simpa using hv.2⟩
    | none =>
      have hres : assign_role_to_user db role user none
          = ⟨.ok (), { db with userRoleAssignments :=
              db.userRoleAssignments ++ [⟨r.id, u.id, none⟩] }, 1⟩ := by
        unfold assign_role_to_user
        simp only [hr, hu, exceptBind_ok, exceptPure_bind, hfind, Option.isSome_none,
          Bool.false_eq_true, if_false, run1_pure, Option.map_none']
      rw [hres]
      have hall := List.find?_eq_none.mp hfind
      refine iff_of_false (by rintro ⟨msg, h⟩; exact absurd h (by simp)) ?_
      rintro ⟨a, ha, hau, har⟩
      exact hall a ha (by simp [hau, har])
  · cases hfind : db.userRoleAssignments.find? (fun a =>
        (a.userId == u.id && a.roleId == r.id) && a.projectId == some pr.id) with
    | some v =>
      have hres : (assign_role_to_user db role user (some x)).result
          = .error (.entityExists "role already assigned to user in this project") := by
        unfold assign_role_to_user
        simp only [hr, hu, hp, exceptBind_ok, exceptPure_bind, exceptMap_ok, hfind,
          Option.isSome_some, if_true, run1_throw]
      rw [hres]
      have hv := List.find?_some hfind
      rw [Bool.and_eq_true, Bool.and_eq_true] at hv
      exact iff_of_true ⟨_, rfl⟩
        ⟨v, List.mem_of_find?_eq_some hfind, by simpa using hv.1.1, by simpa using hv.1.2,
          by simpa using hv.2⟩
    | none =>
      have hres : (assign_role_to_user db role user (some x)).result = .ok () := by
        unfold assign_role_to_user
        simp only [hr, hu, hp, exceptBind_ok, exceptPure_bind, exceptMap_ok, hfind,
          Option.isSome_none, Bool.false_eq_true, if_false, run1_pure]
      rw [hres]
      have hall := List.find?_eq_none.mp hfind
      refine iff_of_false (by rintro ⟨msg, h⟩; exact absurd h (by simp)) ?_
      rintro ⟨a, ha, hau, har, hap⟩
      exact hall a ha (by simp [hau, har, hap])
  · cases hfind : db.teamRoleAssignments.find? (fun a =>
        a.teamId == t.id && a.roleId == r.id) with
    | some v =>
      have hres : (assign_role_to_team db role team none).result
          = .error (.entityExists "role already assigned to team in this project") := by
        unfold assign_role_to_team
        simp only [hr, ht, exceptBind_ok, exceptPure_bind, hfind, Option.isSome_some,
          if_true, run1_throw]
      rw [hres]
      have hv := List.find?_some hfind
      rw [Bool.and_eq_true] at hv
      exact iff_of_true ⟨_, rfl⟩
        ⟨v, List.mem_of_find?_eq_some hfind, by simpa using hv.1, by simpa using hv.2⟩
    | none =>
      have hres : (assign_role_to_team db role team none).result = .ok () := by
        unfold assign_role_to_team
        simp only [hr, ht, exceptBind_ok, exceptPure_bind, hfind, Option.isSome_none,
          Bool.false_eq_true, if_false, run1_pure]
      rw [hres]
      have hall := List.find?_eq_none.mp hfind
      refine iff_of_false (by rintro ⟨msg, h⟩; exact absurd h (by simp)) ?_
      rintro ⟨a, ha, hat, har⟩
      exact hall a ha (by simp [hat, har])
  · cases hfind : db.teamRoleAssignments.find? (fun a =>
        (a.teamId == t.id && a.roleId == r.id) && a.projectId == some pr.id) with
    | some v =>
      have hres : (assign_role_to_team db role team (some x)).result
          = .error (.entityExists "role already assigned to team in this project") := by
        unfold assign_role_to_team
        simp only [hr, ht, hp, exceptBind_ok, exceptPure_bind, exceptMap_ok, hfind,
          Option.isSome_some, if_true, run1_throw]
      rw [hres]
      have hv := List.find?_some hfind
      rw [Bool.and_eq_true, Bool.and_eq_true] at hv
      exact iff_of_true ⟨_, rfl⟩
        ⟨v, List.mem_of_find?_eq_some hfind, by simpa using hv.1.1, by simpa using hv.1.2,
          by simpa using hv.2⟩
    | none =>
      have hres : (assign_role_to_team db role team (some x)).result = .ok () := by
        unfold assign_role_to_team
        simp only [hr, ht, hp, exceptBind_ok, exceptPure_bind, exceptMap_ok, hfind,
          Option.isSome_none, Bool.false_eq_true, if_false, run1_pure]
      rw [hres]
      have hall := List.find?_eq_none.mp hfind
      refine iff_of_false (by rintro ⟨msg, h⟩; exact absurd h (by simp)) ?_
      rintro ⟨a, ha, hat, har, hap⟩
      exact hall a ha (by simp [hat, har, hap])

/-- Witness for C2 (amended): on `dbAssign`, the project-scoped assignment
(role 3, user 2, project 1) blocks both the identical project-scoped
re-assign and — the behaviour the original claim denied — the global
assign. -/
theorem C2_witness :
    (∃ msg, (assign_role_to_user dbAssign (.byId 3) (.byId 2) none).result
      = .error (.entityExists msg)) ∧
    (∃ msg, (assign_role_to_user dbAssign (.byId 3) (.byId 2) (some (.byId 1))).result
      = .error (.entityExists msg)) :=
  ⟨((C2_amended dbAssign (.byId 3) (.byId 2) (.byId 4) (.byId 1)
      ⟨3, "r"⟩ ⟨2, "u"⟩ ⟨4, "t"⟩ ⟨1, "p"⟩ rfl rfl rfl rfl).1).mpr
    ⟨⟨3, 2, some 1⟩, by simp [dbAssign], rfl, rfl⟩,
   ((C2_amended dbAssign (.byId 3) (.byId 2) (.byId 4) (.byId 1)
      ⟨3, "r"⟩ ⟨2, "u"⟩ ⟨4, "t"⟩ ⟨1, "p"⟩ rfl rfl rfl rfl).2.1).mpr
    ⟨⟨3, 2, some 1⟩, by simp [dbAssign], rfl, rfl, rfl⟩⟩

/-! ## Claim C9 -/

/-- The empty store. -/
def dbEmpty : StoreState := {}

/-- Claim C9, counterexample: The claim says a list operation with a filter
matching no stored entity returns an empty collection and raises no error
"e.g. listing stacks filtered by a non-existent project".  But `list_stacks`
resolves its project filter through `_get_schema_by_name_or_id` first, so a
non-existent project raises `KeyError` (NotFound) instead of returning. -/
theorem C9_counterexample :
    list_stacks dbEmpty (some (.byName "ghost")) none none none none
      = .error (.keyError
          "project: not a valid UUID and no entity with this name exists") := rfl

/-- Claim C9, amended: A `list_stacks` filter that matches nothing returns
an empty list without error when the filter is a plain value filter
(component id, name); but the project and user filters are resolved through
the name-or-id resolver first, so a non-existent project or user makes the
listing itself raise `KeyError` — while a project that resolves but owns no
stacks yields an empty list. -/
theorem C9_amended (db : StoreState) (cid : Nat) (nm : String) (x : NameOrId)
    (e : StoreError) (pr : ProjectRow) :
    ((∀ edge ∈ db.stackCompositions, edge.componentId ≠ cid) →
      list_stacks db none none (some cid) none none = .ok []) ∧
    ((∀ s ∈ db.stackRows, s.name ≠ nm) →
      list_stacks db none none none (some nm) none = .ok []) ∧
    (getProjectSchema db x = .error e →
      list_stacks db (some x) none none none none = .error e) ∧
    (getUserSchema db x = .error e →
      list_stacks db none (some x) none none none = .error e) ∧
    (getProjectSchema db x = .ok pr →
      (∀ s ∈ db.stackRows, s.projectId ≠ pr.id) →
      list_stacks db (some x) none none none none = .ok []) := by
  refine ⟨?_, ?_, ?_, ?_, ?_⟩
  · intro h
    unfold list_stacks resolveProjectFilter resolveUserFilter
    rw [exceptPure_bind, exceptPure_bind]
    have hfil : db.stackRows.filter (stackMatches db none none (some cid) none none)
        = [] := by
      apply List.filter_eq_nil_iff.mpr
      intro r hr
      unfold stackMatches
      simp only [Bool.true_and, Bool.and_true, Bool.not_eq_true, List.any_eq_false]
      intro edge hedge
      simp [h edge hedge]
    rw [hfil]
    rfl
  · intro h
    unfold list_stacks resolveProjectFilter resolveUserFilter
    rw [exceptPure_bind, exceptPure_bind]
    have hfil : db.stackRows.filter (stackMatches db none none none (some nm) none)
        = [] := by
      apply List.filter_eq_nil_iff.mpr
      intro r hr
      unfold stackMatches
      simp [h r hr]
    rw [hfil]
    rfl
  · intro h
    unfold list_stacks
    rw [resolveProjectFilter_some, h]
    rfl
  · intro h
    unfold list_stacks
    rw [resolveProjectFilter_none, exceptPure_bind, resolveUserFilter_some, h]
    rfl
  · intro h hnone
    unfold list_stacks
    rw [resolveProjectFilter_some, h, exceptMap_ok, exceptBind_ok,
      resolveUserFilter_none, exceptPure_bind]
    have hfil : db.stackRows.filter (stackMatches db (some pr.id) none none none none)
        = [] := by
      apply List.filter_eq_nil_iff.mpr
      intro r hr
      unfold stackMatches
      simp [hnone r hr]
    rw [hfil]
    rfl

/-- Demo state for the listing claims: projects 1 and 6, user 2, one stack
(id 50, project 1, owner 2) containing component 70. -/
def dbList : StoreState :=
  { projects := [⟨1, "p"⟩, ⟨6, "empty"⟩]
    users := [⟨2, "u"⟩]
    stackRows := [⟨50, "st", 1, 2, false⟩]
    stackCompositions := [⟨50, 70⟩] }

/-- Witness for C9 (amended): on a store holding one project and one stack
of that project, filtering by an unused component id, by an unused name, or
by the (resolvable) project of another empty project all return the empty
list; filtering by an unknown user name raises `KeyError`. -/
theorem C9_witness :
    list_stacks dbList none none (some 99) none none = .ok [] ∧
    list_stacks dbList none none none (some "nope") none = .ok [] ∧
    list_stacks dbList none (some (.byName "ghost")) none none none
      = .error (.keyError
          "user: not a valid UUID and no entity with this name exists") ∧
    list_stacks dbList (some (.byId 6)) none none none none = .ok [] :=
  ⟨(C9_amended dbList 99 "nope" (.byName "ghost")
      (.keyError "user: not a valid UUID and no entity with this name exists")
      ⟨6, "empty"⟩).1 (by decide),
   (C9_amended dbList 99 "nope" (.byName "ghost")
      (.keyError "user: not a valid UUID and no entity with this name exists")
      ⟨6, "empty"⟩).2.1 (by decide),
   (C9_amended dbList 99 "nope" (.byName "ghost")
      (.keyError "user: not a valid UUID and no entity with this name exists")
      ⟨6, "empty"⟩).2.2.2.1 rfl,
   (C9_amended dbList 99 "nope" (.byId 6)
      (.keyError "user: not a valid UUID and no entity with this name exists")
      ⟨6, "empty"⟩).2.2.2.2 rfl (by decide)⟩

/-! ## Claim C1 -/

/-- Reduction of `run1` on a plain error value. -/
theorem run1_error {α : Type} (db : StoreState) (e : StoreError) :
    run1 db (.error e : Except StoreError (α × StoreState)) = ⟨.error e, db, 0⟩ := rfl

/-- Id-lookup reduction for the generic resolver. -/
theorem getByNameOrId_byId_ok {ρ : Type} {rows : List ρ} {rid : ρ → Nat}
    {rname : ρ → String} {nm : String} {i : Nat} {r : ρ}
    (h : rows.find? (fun r => rid r == i) = some r) :
    getByNameOrId rows rid rname nm (.byId i) = .ok r := by
  unfold getByNameOrId
  simp only [h]

/-- Id-lookup reduction for the project resolver. -/
theorem getProjectSchema_byId_ok {db : StoreState} {pid : Nat} {pr : ProjectRow}
    (h : db.projects.find? (fun r => ProjectRow.id r == pid) = some pr) :
    getProjectSchema db (.byId pid) = .ok pr := by
  unfold getProjectSchema
  exact getByNameOrId_byId_ok h

/-- Id-lookup reduction for the user resolver. -/
theorem getUserSchema_byId_ok {db : StoreState} {uid : Nat} {u : UserRow}
    (h : db.users.find? (fun r => UserRow.id r == uid) = some u) :
    getUserSchema db (.byId uid) = .ok u := by
  unfold getUserSchema
  exact getByNameOrId_byId_ok h

/-- Demo state for the shared-uniqueness claims: in project 1, user 3 (bob)
already shares component 10 and stack 20, while user 2 (alice) owns the
identically-named un-shared component 11 and stack 21.  A second pair of
rows named "default" reproduces the protected-entity corner: component 30
is a shared orchestrator named "default" owned by bob, and component 31 is
THE default orchestrator (un-shared, owned by alice). -/
def dbShared : StoreState :=
  { projects := [⟨1, "p"⟩]
    users := [⟨2, "alice"⟩, ⟨3, "bob"⟩]
    components := [⟨10, "comp", .orchestrator, "fl", 1, 3, true⟩,
                   ⟨11, "comp", .orchestrator, "fl", 1, 2, false⟩,
                   ⟨30, "default", .orchestrator, "fl", 1, 3, true⟩,
                   ⟨31, "default", .orchestrator, "fl", 1, 2, false⟩]
    stackRows := [⟨20, "stk", 1, 3, true⟩, ⟨21, "stk", 1, 2, false⟩] }

/-- Claim C1, counterexample: Components 30 and 31 share (name "default",
project 1, type orchestrator) and have different owners; component 30 is
already shared.  The claim says the update transitioning component 31 to
`is_shared=true` must fail with AlreadyExists — but component 31 is the
protected default orchestrator, and `update_stack_component` raises
IllegalOperation for it before the shared-uniqueness guard ever runs. -/
theorem C1_counterexample :
    (update_stack_component dbShared
        ⟨31, "default", .orchestrator, "fl", 1, 2, true⟩).result
      = .error (.illegalOperation "the default component cannot be modified") ∧
    ¬∃ msg, (update_stack_component dbShared
        ⟨31, "default", .orchestrator, "fl", 1, 2, true⟩).result
      = .error (.entityExists msg) := by
  refine ⟨rfl, ?_⟩
  rintro ⟨msg, h⟩
  rw [show (update_stack_component dbShared
      ⟨31, "default", .orchestrator, "fl", 1, 2, true⟩).result
    = .error (.illegalOperation "the default component cannot be modified") from rfl] at h
  exact absurd h (by simp)

/-- Claim C1, amended: For two stack components (resp. stacks) with the same
name, project and type but different owners, when one is already shared:
creating the other with `is_shared=true` fails with AlreadyExists, and an
update transitioning the other from un-shared to shared fails with
AlreadyExists provided the updated entity is not itself a protected default
entity (the default stack, or a "default"-named orchestrator /
artifact-store component) — for a protected default entity the update
fails with IllegalOperation before the shared-uniqueness guard runs.
Every failure leaves the store uncommitted and unchanged. -/
theorem C1_amended (db : StoreState) (cmC cmU : ComponentModel)
    (smC smU : StackModel) (c2 : ComponentRow) (s2 : StackRow) :
    -- (1) component create
    ((∃ pr ∈ db.projects, pr.id = cmC.projectId) →
     (∃ u ∈ db.users, u.id = cmC.userId) →
     (∀ c ∈ db.components, c.id ≠ cmC.id) →
     (∃ c1 ∈ db.components, c1.name = cmC.name ∧ c1.projectId = cmC.projectId ∧
        c1.type = cmC.type ∧ c1.isShared = true) →
     cmC.isShared = true →
     ∃ msg, create_stack_component db cmC
        = ⟨.error (.entityExists msg), db, 0⟩) ∧
    -- (2) component update, non-default target
    (db.components.find? (fun c => c.id == cmU.id) = some c2 →
     c2.name = cmU.name → c2.projectId = cmU.projectId → c2.type = cmU.type →
     c2.isShared = false → cmU.isShared = true →
     ¬(c2.name = DEFAULT_STACK_COMPONENT_NAME ∧
        (c2.type = CType.orchestrator ∨ c2.type = CType.artifactStore)) →
     (∃ pr ∈ db.projects, pr.id = cmU.projectId) →
     (∃ c1 ∈ db.components, c1.name = cmU.name ∧ c1.projectId = cmU.projectId ∧
        c1.type = cmU.type ∧ c1.isShared = true) →
     ∃ msg, update_stack_component db cmU
        = ⟨.error (.entityExists msg), db, 0⟩) ∧
    -- (3) stack create
    ((∃ pr ∈ db.projects, pr.id = smC.projectId) →
     (∃ u ∈ db.users, u.id = smC.userId) →
     (∀ s ∈ db.stackRows, s.id ≠ smC.id) →
     (∃ s1 ∈ db.stackRows, s1.name = smC.name ∧ s1.projectId = smC.projectId ∧
        s1.isShared = true) →
     smC.isShared = true →
     ∃ msg, create_stack db smC = ⟨.error (.entityExists msg), db, 0⟩) ∧
    -- (4) stack update, non-default target
    (db.stackRows.find? (fun s => s.id == smU.id) = some s2 →
     s2.name = smU.name → s2.projectId = smU.projectId →
     s2.isShared = false → smU.isShared = true →
     s2.name ≠ DEFAULT_STACK_NAME →
     (∃ pr ∈ db.projects, pr.id = smU.projectId) →
     (∃ s1 ∈ db.stackRows, s1.name = smU.name ∧ s1.projectId = smU.projectId ∧
        s1.isShared = true) →
     ∃ msg, update_stack db smU = ⟨.error (.entityExists msg), db, 0⟩) := by
  refine ⟨?_, ?_, ?_, ?_⟩
  · intro hpr hu hid hshared hcs
    obtain ⟨pr1, hpr1⟩ := find?_exists_some
      (p := fun r : ProjectRow => ProjectRow.id r == cmC.projectId)
      (by obtain ⟨pr, hm, hi⟩ := hpr; exact ⟨pr, hm, by simp [hi]⟩)
    obtain ⟨u1, hu1⟩ := find?_exists_some
      (p := fun r : UserRow => UserRow.id r == cmC.userId)
      (by obtain ⟨u, hm, hi⟩ := hu; exact ⟨u, hm, by simp [hi]⟩)
    have hidnone : db.components.find? (fun c => c.id == cmC.id) = none :=
      find?_eq_none_of_all (fun c hc => by simp [hid c hc])
    have hguard1 : failIfComponentWithIdAlreadyExists db cmC = .ok () := by
      unfold failIfComponentWithIdAlreadyExists
      rw [hidnone]
      rfl
    obtain ⟨cs, hcsm, hcsn, hcsp, hcst, hcssh⟩ := hshared
    obtain ⟨v3, hv3⟩ := find?_exists_some (p := fun c : ComponentRow =>
        c.name == cmC.name && c.projectId == cmC.projectId
          && c.isShared == cmC.isShared && c.type == cmC.type)
      ⟨cs, hcsm, by simp [hcsn, hcsp, hcst, hcssh, hcs]⟩
    have hguard3 : failIfComponentWithNameTypeAlreadyShared db cmC
        = .error (.entityExists
          "component: existing shared component with the same name and type in project") := by
      unfold failIfComponentWithNameTypeAlreadyShared
      rw [hv3]
      rfl
    cases hdom : db.components.find? (fun c =>
        c.name == cmC.name && c.projectId == cmC.projectId
          && c.userId == cmC.userId && c.type == cmC.type) with
    | some v =>
      have hguard2 : failIfComponentWithNameTypeExistsForUser db cmC
          = .error (.entityExists
            "component: existing component with the same name and type owned by the same user") := by
        unfold failIfComponentWithNameTypeExistsForUser
        rw [hdom]
        rfl
      refine ⟨"component: existing component with the same name and type owned by the same user", ?_⟩
      unfold create_stack_component
      rw [getProjectSchema_byId_ok hpr1, exceptBind_ok, getUserSchema_byId_ok hu1,
        exceptBind_ok, hguard1, exceptBind_ok, hguard2, exceptBind_error, run1_error]
    | none =>
      have hguard2 : failIfComponentWithNameTypeExistsForUser db cmC = .ok () := by
        unfold failIfComponentWithNameTypeExistsForUser
        rw [hdom]
        rfl
      refine ⟨"component: existing shared component with the same name and type in project", ?_⟩
      unfold create_stack_component
      rw [getProjectSchema_byId_ok hpr1, exceptBind_ok, getUserSchema_byId_ok hu1,
        exceptBind_ok, hguard1, exceptBind_ok, hguard2, exceptBind_ok, hcs]
      rw [if_pos rfl, hguard3, exceptBind_error, run1_error]
  · intro hfind hn hp ht hsh hcs hnotdef hpr hshared
    have hdef : (c2.name == DEFAULT_STACK_COMPONENT_NAME
        && (c2.type == CType.orchestrator || c2.type == CType.artifactStore)) = false := by
      cases hq : (c2.name == DEFAULT_STACK_COMPONENT_NAME) with
      | false => simp [hq]
      | true =>
        cases hw : (c2.type == CType.orchestrator || c2.type == CType.artifactStore) with
        | false => simp [hw]
        | true =>
          exfalso
          apply hnotdef
          refine ⟨by simpa using hq, ?_⟩
          rcases Bool.or_eq_true_iff.mp hw with hw2 | hw2
          · exact Or.inl (by simpa using hw2)
          · exact Or.inr (by simpa using hw2)
    have hren : (c2.name != cmU.name) = false := by simp [hn]
    have htrans : (!c2.isShared && cmU.isShared) = true := by simp [hsh, hcs]
    obtain ⟨pr1, hpr1⟩ := find?_exists_some
      (p := fun r : ProjectRow => ProjectRow.id r == cmU.projectId)
      (by obtain ⟨pr, hm, hi⟩ := hpr; exact ⟨pr, hm, by simp [hi]⟩)
    obtain ⟨cs, hcsm, hcsn, hcsp, hcst, hcssh⟩ := hshared
    obtain ⟨v3, hv3⟩ := find?_exists_some (p := fun c : ComponentRow =>
        c.name == cmU.name && c.projectId == cmU.projectId
          && c.isShared == cmU.isShared && c.type == cmU.type)
      ⟨cs, hcsm, by simp [hcsn, hcsp, hcst, hcssh, hcs]⟩
    have hguard3 : failIfComponentWithNameTypeAlreadyShared db cmU
        = .error (.entityExists
          "component: existing shared component with the same name and type in project") := by
      unfold failIfComponentWithNameTypeAlreadyShared
      rw [hv3]
      rfl
    refine ⟨"component: existing shared component with the same name and type in project", ?_⟩
    unfold update_stack_component
    simp only [hfind, hdef, Bool.false_eq_true, if_false, hren, exceptPure_bind,
      htrans, if_true, getProjectSchema_byId_ok hpr1, exceptBind_ok, hguard3,
      exceptBind_error, run1_error]
  · intro hpr hu hid hshared hcs
    obtain ⟨pr1, hpr1⟩ := find?_exists_some
      (p := fun r : ProjectRow => ProjectRow.id r == smC.projectId)
      (by obtain ⟨pr, hm, hi⟩ := hpr; exact ⟨pr, hm, by simp [hi]⟩)
    obtain ⟨u1, hu1⟩ := find?_exists_some
      (p := fun r : UserRow => UserRow.id r == smC.userId)
      (by obtain ⟨u, hm, hi⟩ := hu; exact ⟨u, hm, by simp [hi]⟩)
    have hidnone : db.stackRows.find? (fun s => s.id == smC.id) = none :=
      find?_eq_none_of_all (fun c hc => by simp [hid c hc])
    have hguard1 : failIfStackWithIdAlreadyExists db smC = .ok () := by
      unfold failIfStackWithIdAlreadyExists
      rw [hidnone]
      rfl
    obtain ⟨ss, hssm, hssn, hssp, hsssh⟩ := hshared
    obtain ⟨v3, hv3⟩ := find?_exists_some (p := fun s : StackRow =>
        s.name == smC.name && s.projectId == smC.projectId && s.isShared == smC.isShared)
      ⟨ss, hssm, by simp [hssn, hssp, hsssh, hcs]⟩
    have hguard3 : failIfStackWithNameAlreadyShared db smC
        = .error (.entityExists
          "stack: existing shared stack with the same name in project") := by
      unfold failIfStackWithNameAlreadyShared
      rw [hv3]
      rfl
    cases hdom : db.stackRows.find? (fun s =>
        s.name == smC.name && s.projectId == smC.projectId && s.userId == smC.userId) with
    | some v =>
      have hguard2 : failIfStackWithNameExistsForUser db smC
          = .error (.entityExists
            "stack: existing stack with the same name, project and owner") := by
        unfold failIfStackWithNameExistsForUser
        rw [hdom]
        rfl
      refine ⟨"stack: existing stack with the same name, project and owner", ?_⟩
      unfold create_stack
      rw [getProjectSchema_byId_ok hpr1, exceptBind_ok, getUserSchema_byId_ok hu1,
        exceptBind_ok, hguard1, exceptBind_ok, hguard2, exceptBind_error, run1_error]
    | none =>
      have hguard2 : failIfStackWithNameExistsForUser db smC = .ok () := by
        unfold failIfStackWithNameExistsForUser
        rw [hdom]
        rfl
      refine ⟨"stack: existing shared stack with the same name in project", ?_⟩
      unfold create_stack
      rw [getProjectSchema_byId_ok hpr1, exceptBind_ok, getUserSchema_byId_ok hu1,
        exceptBind_ok, hguard1, exceptBind_ok, hguard2, exceptBind_ok, hcs]
      rw [if_pos rfl, hguard3, exceptBind_error, run1_error]
  · intro hfind hn hp hsh hcs hnotdef hpr hshared
    have hdef : (s2.name == DEFAULT_STACK_NAME) = false := by
      simp [hnotdef]
    have hren : (s2.name != smU.name) = false := by simp [hn]
    have htrans : (!s2.isShared && smU.isShared) = true := by simp [hsh, hcs]
    obtain ⟨pr1, hpr1⟩ := find?_exists_some
      (p := fun r : ProjectRow => ProjectRow.id r == smU.projectId)
      (by obtain ⟨pr, hm, hi⟩ := hpr; exact ⟨pr, hm, by simp [hi]⟩)
    obtain ⟨ss, hssm, hssn, hssp, hsssh⟩ := hshared
    obtain ⟨v3, hv3⟩ := find?_exists_some (p := fun s : StackRow =>
        s.name == smU.name && s.projectId == smU.projectId && s.isShared == smU.isShared)
      ⟨ss, hssm, by simp [hssn, hssp, hsssh, hcs]⟩
    have hguard3 : failIfStackWithNameAlreadyShared db smU
        = .error (.entityExists
          "stack: existing shared stack with the same name in project") := by
      unfold failIfStackWithNameAlreadyShared
      rw [hv3]
      rfl
    refine ⟨"stack: existing shared stack with the same name in project", ?_⟩
    unfold update_stack
    simp only [hfind, hdef, Bool.false_eq_true, if_false, hren, exceptPure_bind,
      htrans, if_true, getProjectSchema_byId_ok hpr1, exceptBind_ok, hguard3,
      exceptBind_error, run1_error]

/-- Witness for C1 (amended): on `dbShared`, creating a second "comp"
orchestrator as shared for alice, sharing alice's existing "comp"
component, creating a second "stk" stack as shared for alice, and sharing
alice's existing "stk" stack all fail with AlreadyExists, leaving the store
unchanged with zero commits. -/
theorem C1_witness :
    (∃ msg, create_stack_component dbShared ⟨12, "comp", .orchestrator, "fl", 1, 2, true⟩
      = ⟨.error (.entityExists msg), dbShared, 0⟩) ∧
    (∃ msg, update_stack_component dbShared ⟨11, "comp", .orchestrator, "fl", 1, 2, true⟩
      = ⟨.error (.entityExists msg), dbShared, 0⟩) ∧
    (∃ msg, create_stack dbShared ⟨22, "stk", 1, 2, true, []⟩
      = ⟨.error (.entityExists msg), dbShared, 0⟩) ∧
    (∃ msg, update_stack dbShared ⟨21, "stk", 1, 2, true, []⟩
      = ⟨.error (.entityExists msg), dbShared, 0⟩) := by
  obtain ⟨h1, h2, h3, h4⟩ := C1_amended dbShared
    ⟨12, "comp", .orchestrator, "fl", 1, 2, true⟩
    ⟨11, "comp", .orchestrator, "fl", 1, 2, true⟩
    ⟨22, "stk", 1, 2, true, []⟩ ⟨21, "stk", 1, 2, true, []⟩
    ⟨11, "comp", .orchestrator, "fl", 1, 2, false⟩ ⟨21, "stk", 1, 2, false⟩
  refine ⟨h1 ⟨⟨1, "p"⟩, by simp [dbShared], rfl⟩ ⟨⟨2, "alice"⟩, by simp [dbShared], rfl⟩
      (by decide) ⟨⟨10, "comp", .orchestrator, "fl", 1, 3, true⟩,
        by simp [dbShared], rfl, rfl, rfl, rfl⟩ rfl,
    h2 (by decide) rfl rfl rfl rfl rfl (by decide)
      ⟨⟨1, "p"⟩, by simp [dbShared], rfl⟩
      ⟨⟨10, "comp", .orchestrator, "fl", 1, 3, true⟩,
        by simp [dbShared], rfl, rfl, rfl, rfl⟩,
    h3 ⟨⟨1, "p"⟩, by simp [dbShared], rfl⟩ ⟨⟨2, "alice"⟩, by simp [dbShared], rfl⟩
      (by decide) ⟨⟨20, "stk", 1, 3, true⟩, by simp [dbShared], rfl, rfl, rfl⟩ rfl,
    h4 (by decide) rfl rfl rfl rfl (by decide)
      ⟨⟨1, "p"⟩, by simp [dbShared], rfl⟩
      ⟨⟨20, "stk", 1, 3, true⟩, by simp [dbShared], rfl, rfl, rfl⟩⟩

/-! ## Claim C3 -/

/-- An error out of `run1` means nothing was committed. -/
theorem run1_error_inv {α : Type} {db : StoreState}
    {core : Except StoreError (α × StoreState)} {e : StoreError}
    (h : (run1 db core).result = .error e) :
    (run1 db core).db = db ∧ (run1 db core).commits = 0 := by
  cases core with
  | error e2 => exact ⟨rfl, rfl⟩
  | ok p => simp [run1] at h

/-- A success out of `run1` means exactly one commit. -/
theorem run1_ok_commits {α : Type} {db : StoreState}
    {core : Except StoreError (α × StoreState)} {a : α}
    (h : (run1 db core).result = .ok a) : (run1 db core).commits = 1 := by
  cases core with
  | error e => simp [run1] at h
  | ok p => rfl

/-- Claim C3, counterexample: The claim says every public mutating operation
commits exactly once at the end.  But `create_role` on an empty store
succeeds with TWO commits: one for the role row, a second for its
permission rows. -/
theorem C3_counterexample :
    (create_role dbEmpty ⟨7, "r", ["p1"]⟩).commits = 2 ∧
    (create_role dbEmpty ⟨7, "r", ["p1"]⟩).result = .ok ⟨7, "r", ["p1"]⟩ :=
  ⟨rfl, rfl⟩

/-- Claim C3, amended: Guard checks run before the first commit: whenever a
modelled mutating operation fails, the committed state is unchanged and the
commit count is zero (all-or-nothing).  On success, `create_stack` commits
exactly once — but `create_role` and `update_role` commit exactly twice,
the role row first and the permission rows separately. -/
theorem C3_commit_discipline (db : StoreState) (sm : StackModel)
    (rm rmU : RoleModel) :
    (∀ e, (create_stack db sm).result = .error e →
      (create_stack db sm).db = db ∧ (create_stack db sm).commits = 0) ∧
    (∀ a, (create_stack db sm).result = .ok a → (create_stack db sm).commits = 1) ∧
    (∀ e, (create_role db rm).result = .error e →
      (create_role db rm).db = db ∧ (create_role db rm).commits = 0) ∧
    (∀ a, (create_role db rm).result = .ok a → (create_role db rm).commits = 2) ∧
    (∀ e, (update_role db rmU).result = .error e →
      (update_role db rmU).db = db ∧ (update_role db rmU).commits = 0) ∧
    (∀ a, (update_role db rmU).result = .ok a → (update_role db rmU).commits = 2) := by
  refine ⟨?_, ?_, ?_, ?_, ?_, ?_⟩
  · intro e h
    unfold create_stack at h ⊢
    exact run1_error_inv h
  · intro a h
    unfold create_stack at h ⊢
    exact run1_ok_commits h
  · intro e h
    unfold create_role at h ⊢
    cases hfind : db.roles.find? (fun r => r.name == rm.name) with
    | some v => exact ⟨rfl, rfl⟩
    | none => simp [hfind, Sess.start, Sess.stage, Sess.commitNow, Sess.done] at h
  · intro a h
    unfold create_role at h ⊢
    cases hfind : db.roles.find? (fun r => r.name == rm.name) with
    | some v => simp [hfind, Sess.start, Sess.fail] at h
    | none => rfl
  · intro e h
    unfold update_role at h ⊢
    cases hfind : db.roles.find? (fun r => r.id == rmU.id) with
    | none => exact ⟨rfl, rfl⟩
    | some v =>
      cases hb : (v.name == ADMIN_ROLE || v.name == GUEST_ROLE) with
      | true =>
        simp only [hb, if_true]
        exact ⟨rfl, rfl⟩
      | false =>
        have hbP : ¬(v.name = ADMIN_ROLE ∨ v.name = GUEST_ROLE) := by simpa using hb
        simp [hfind, hbP, Sess.start, Sess.stage, Sess.commitNow, Sess.done] at h
  · intro a h
    unfold update_role at h ⊢
    cases hfind : db.roles.find? (fun r => r.id == rmU.id) with
    | none => simp [hfind, Sess.start, Sess.fail] at h
    | some v =>
      cases hb : (v.name == ADMIN_ROLE || v.name == GUEST_ROLE) with
      | true => simp [hfind, hb, Sess.start, Sess.fail] at h
      | false =>
        simp only [hb, Bool.false_eq_true, if_false]
        rfl

/-- Witness for C3 (amended): on the demo role store, creating a role with
a duplicate name leaves the store unchanged with zero commits, and a
successful `update_role` of the non-built-in role commits twice. -/
theorem C3_witness :
    ((create_role dbAssign ⟨9, "r", []⟩).db = dbAssign ∧
      (create_role dbAssign ⟨9, "r", []⟩).commits = 0) ∧
    (update_role dbAssign ⟨3, "r2", ["perm"]⟩).commits = 2 :=
  ⟨(C3_commit_discipline dbAssign ⟨0, "s", 1, 2, false, []⟩ ⟨9, "r", []⟩
      ⟨3, "r2", ["perm"]⟩).2.2.1 (.entityExists "role: role already exists") rfl,
   (C3_commit_discipline dbAssign ⟨0, "s", 1, 2, false, []⟩ ⟨9, "r", []⟩
      ⟨3, "r2", ["perm"]⟩).2.2.2.2.2 ⟨3, "r2", ["perm"]⟩ rfl⟩

/-! ## Claim C4 -/

/-- A miss on the first block lets `find?` continue in the second. -/
theorem find?_append_left_none {α : Type} {l1 l2 : List α} {p : α → Bool}
    (h : l1.find? p = none) : (l1 ++ l2).find? p = l2.find? p := by
  simp [List.find?_append, h]

/-- Claim C4: `get_or_create_run` attempts the create first; both the
duplicate-name and the duplicate-id failure of `create_run` raise the one
shared AlreadyExists kind, and exactly that kind makes `get_or_create_run`
retry as a get by id, falling back to a get by name when the get by id
raises NotFound.  Consequently, calling `get_or_create_run` twice with the
same (fresh) run payload stores exactly one matching run and both calls
return a run with the payload's id. -/
theorem C4_get_or_create_run (db : StoreState) (m : PipelineRunModel)
    (hname : ∀ r ∈ db.runs, r.name ≠ m.name)
    (hid : ∀ r ∈ db.runs, r.id ≠ m.id) :
    (∀ (db2 : StoreState) (m2 : PipelineRunModel) e,
      (create_run db2 m2).result = .error e → ∃ msg, e = .entityExists msg) ∧
    (∀ (db2 : StoreState) (m2 : PipelineRunModel) a,
      (create_run db2 m2).result = .ok a →
      get_or_create_run db2 m2 = create_run db2 m2) ∧
    (∀ (db2 : StoreState) (m2 : PipelineRunModel) msg,
      (create_run db2 m2).result = .error (.entityExists msg) →
      ((∀ r, get_run db2 (.byId m2.id) = .ok r →
        (get_or_create_run db2 m2).result = .ok r) ∧
       (∀ msg2, get_run db2 (.byId m2.id) = .error (.keyError msg2) →
        (get_or_create_run db2 m2).result = get_run db2 (.byName m2.name)))) ∧
    ((∃ r1, (get_or_create_run db m).result = .ok r1 ∧ r1.id = m.id) ∧
     (∃ r2, (get_or_create_run (get_or_create_run db m).db m).result = .ok r2 ∧
        r2.id = m.id) ∧
     (get_or_create_run (get_or_create_run db m).db m).db = (get_or_create_run db m).db ∧
     ((get_or_create_run db m).db.runs.countP
        (fun r => r.id == m.id || r.name == m.name)) = 1) := by
  have hshared : ∀ (db2 : StoreState) (m2 : PipelineRunModel) e,
      (create_run db2 m2).result = .error e → ∃ msg, e = .entityExists msg := by
    intro db2 m2 e h
    cases h1 : db2.runs.find? (fun r => r.name == m2.name) with
    | some v =>
      have hres : (create_run db2 m2).result
          = .error (.entityExists "run: a pipeline run with this name already exists") := by
        unfold create_run
        simp only [h1, Option.isSome_some, if_true]
        rfl
      rw [hres] at h
      injection h with h2
      exact ⟨_, h2.symm⟩
    | none =>
      cases h2 : db2.runs.find? (fun r => r.id == m2.id) with
      | some v =>
        have hres : (create_run db2 m2).result
            = .error (.entityExists "run: a pipeline run with this ID already exists") := by
          unfold create_run
          simp only [h1, h2, Option.isSome_some, Option.isSome_none, Bool.false_eq_true,
            if_false, if_true]
          rfl
        rw [hres] at h
        injection h with h3
        exact ⟨_, h3.symm⟩
      | none =>
        have hok : (create_run db2 m2).result.isOk = true := by
          unfold create_run
          simp only [h1, h2, Option.isSome_none, Bool.false_eq_true, if_false]
          rfl
        rw [h] at hok
        exact absurd hok (by simp [Except.isOk, Except.toBool])
  refine ⟨hshared, ?_, ?_, ?_⟩
  · intro db2 m2 a h
    simp only [get_or_create_run, h]
  · intro db2 m2 msg h
    constructor
    · intro r hg
      simp only [get_or_create_run, h, hg]
    · intro msg2 hg
      simp only [get_or_create_run, h, hg]
      cases hn : get_run db2 (.byName m2.name) with
      | ok r => rfl
      | error e => rfl
  · have hfn : db.runs.find? (fun r => r.name == m.name) = none :=
      find?_eq_none_of_all (fun r hr => by simp [hname r hr])
    have hfi : db.runs.find? (fun r => r.id == m.id) = none :=
      find?_eq_none_of_all (fun r hr => by simp [hid r hr])
    have h1 : create_run db m
        = ⟨.ok (runRowToModel ⟨m.id, m.name, m.projectId,
            (match m.stackId with
             | some sid =>
               if (db.stackRows.find? (fun st => st.id == sid)).isSome then some sid
               else none
             | none => none),
            (match m.pipelineId with
             | some pid =>
               if (db.pipelines.find? (fun pl => pl.id == pid)).isSome then some pid
               else none
             | none => none)⟩),
          { db with runs := db.runs ++ [⟨m.id, m.name, m.projectId,
            (match m.stackId with
             | some sid =>
               if (db.stackRows.find? (fun st => st.id == sid)).isSome then some sid
               else none
             | none => none),
            (match m.pipelineId with
             | some pid =>
               if (db.pipelines.find? (fun pl => pl.id == pid)).isSome then some pid
               else none
             | none => none)⟩] }, 1⟩ := by
      unfold create_run
      simp only [hfn, hfi, Option.isSome_none, Bool.false_eq_true, if_false, run1_pure]
    set row : RunRow := ⟨m.id, m.name, m.projectId,
      (match m.stackId with
       | some sid =>
         if (db.stackRows.find? (fun st => st.id == sid)).isSome then some sid
         else none
       | none => none),
      (match m.pipelineId with
       | some pid =>
         if (db.pipelines.find? (fun pl => pl.id == pid)).isSome then some pid
         else none
       | none => none)⟩ with hrow
    have hgoc1 : get_or_create_run db m
        = ⟨.ok (runRowToModel row), { db with runs := db.runs ++ [row] }, 1⟩ := by
      simp only [get_or_create_run, h1]
    have hdb1 : (get_or_create_run db m).db = { db with runs := db.runs ++ [row] } := by
      rw [hgoc1]
    have hfn2 : ((db.runs ++ [row]).find? (fun r => r.name == m.name)) = some row := by
      rw [find?_append_left_none hfn]
      simp [hrow]
    have hfi2 : ((db.runs ++ [row]).find? (fun r => r.id == m.id)) = some row := by
      rw [find?_append_left_none hfi]
      simp [hrow]
    have h2 : (create_run { db with runs := db.runs ++ [row] } m).result
        = .error (.entityExists "run: a pipeline run with this name already exists") := by
      unfold create_run
      simp only [hfn2, Option.isSome_some, if_true, run1]
    have hget : get_run { db with runs := db.runs ++ [row] } (.byId m.id)
        = .ok (runRowToModel row) := by
      unfold get_run getRunSchema
      rw [getByNameOrId_byId_ok (r := row) (by exact hfi2)]
      rfl
    have hgoc2 : get_or_create_run { db with runs := db.runs ++ [row] } m
        = ⟨.ok (runRowToModel row), { db with runs := db.runs ++ [row] }, 0⟩ := by
      simp only [get_or_create_run, h2, hget]
    refine ⟨⟨runRowToModel row, by rw [hgoc1], rfl⟩, ?_, ?_, ?_⟩
    · rw [hdb1, hgoc2]
      exact ⟨runRowToModel row, rfl, rfl⟩
    · rw [hdb1, hgoc2]
    · rw [hdb1]
      show (db.runs ++ [row]).countP (fun r => r.id == m.id || r.name == m.name) = 1
      rw [List.countP_append]
      have hz : db.runs.countP (fun r => r.id == m.id || r.name == m.name) = 0 := by
        rw [List.countP_eq_zero]
        intro r hr
        simp [hid r hr, hname r hr]
      rw [hz]
      simp [hrow, List.countP_cons]

/-- Witness for C4: a fresh run payload against the lineage demo store —
the store holds one run named "run-1" with id 100, the payload uses id 200
and name "run-2", so both freshness hypotheses hold and the double-call
idempotence follows. -/
theorem C4_witness :
    (∃ r1, (get_or_create_run dbLineage ⟨200, "run-2", 1, none, none⟩).result = .ok r1 ∧
      r1.id = 200) ∧
    ((get_or_create_run dbLineage ⟨200, "run-2", 1, none, none⟩).db.runs.countP
      (fun r => r.id == 200 || r.name == "run-2")) = 1 :=
  ⟨(C4_get_or_create_run dbLineage ⟨200, "run-2", 1, none, none⟩
      (by decide) (by decide)).2.2.2.1,
   (C4_get_or_create_run dbLineage ⟨200, "run-2", 1, none, none⟩
      (by decide) (by decide)).2.2.2.2.2.2⟩

/-! ## Claim C8 -/

/-- Claim C8: The secret-values codec round-trips: decoding the encoded
values returns the original mapping exactly, both in no-key mode (where
the serialized form is UTF-8 + base64 encoded) and when the same
encryption engine is used on both sides; and encoding fails with
ValueTooLarge (`ValueError`) exactly when the encoded byte length exceeds
the fixed column-capacity constant `TEXT_FIELD_MAX_LENGTH`.  The external
`json` serializer and the encryption engine are constrained only by their
documented round-trip contracts at the encoded value. -/
theorem C8_secret_values_roundtrip
    (jsonDumps : SecretValues → String) (jsonLoads : String → Option SecretValues)
    (values : SecretValues)
    (engEnc : String → List Nat) (engDec : List Nat → Option String)
    (hjson : jsonLoads (jsonDumps values) = some values)
    (hengine : engDec (engEnc (jsonDumps values)) = some (jsonDumps values)) :
    (∀ bs, dump_secret_values jsonDumps values none = .ok bs →
      load_secret_values jsonLoads bs none = some values) ∧
    (∀ bs, dump_secret_values jsonDumps values (some engEnc) = .ok bs →
      load_secret_values jsonLoads bs (some engDec) = some values) ∧
    ((∃ msg, dump_secret_values jsonDumps values none = .error (.valueError msg)) ↔
      (b64encode (strUtf8 (jsonDumps values))).length > TEXT_FIELD_MAX_LENGTH) ∧
    ((∃ msg, dump_secret_values jsonDumps values (some engEnc)
        = .error (.valueError msg)) ↔
      (engEnc (jsonDumps values)).length > TEXT_FIELD_MAX_LENGTH) := by
  have hdNone : dump_secret_values jsonDumps values none
      = (if (b64encode (strUtf8 (jsonDumps values))).length > TEXT_FIELD_MAX_LENGTH then
          .error (.valueError "database representation of secret values exceeds max length")
        else .ok (b64encode (strUtf8 (jsonDumps values)))) := rfl
  have hdEnc : dump_secret_values jsonDumps values (some engEnc)
      = (if (engEnc (jsonDumps values)).length > TEXT_FIELD_MAX_LENGTH then
          .error (.valueError "database representation of secret values exceeds max length")
        else .ok (engEnc (jsonDumps values))) := rfl
  refine ⟨?_, ?_, ?_, ?_⟩
  · intro bs h
    rw [hdNone] at h
    by_cases hl : (b64encode (strUtf8 (jsonDumps values))).length > TEXT_FIELD_MAX_LENGTH
    · rw [if_pos hl] at h
      exact absurd h (by simp)
    · rw [if_neg hl] at h
      have hbs : bs = b64encode (strUtf8 (jsonDumps values)) := by
        simpa using h.symm
      subst hbs
      show ((b64decode (b64encode (strUtf8 (jsonDumps values)))).bind utf8ToStr).bind
        jsonLoads = some values
      rw [b64decode_b64encode _ (strUtf8_lt_256 (jsonDumps values))]
      show (utf8ToStr (strUtf8 (jsonDumps values))).bind jsonLoads = some values
      rw [utf8ToStr_strUtf8]
      show jsonLoads (jsonDumps values) = some values
      exact hjson
  · intro bs h
    rw [hdEnc] at h
    by_cases hl : (engEnc (jsonDumps values)).length > TEXT_FIELD_MAX_LENGTH
    · rw [if_pos hl] at h
      exact absurd h (by simp)
    · rw [if_neg hl] at h
      have hbs : bs = engEnc (jsonDumps values) := by
        simpa using h.symm
      subst hbs
      show (engDec (engEnc (jsonDumps values))).bind jsonLoads = some values
      rw [hengine]
      show jsonLoads (jsonDumps values) = some values
      exact hjson
  · rw [hdNone]
    by_cases hl : (b64encode (strUtf8 (jsonDumps values))).length > TEXT_FIELD_MAX_LENGTH
    · rw [if_pos hl]
      exact iff_of_true ⟨_, rfl⟩ hl
    · rw [if_neg hl]
      exact iff_of_false (by rintro ⟨msg, h⟩; exact absurd h (by simp)) hl
  · rw [hdEnc]
    by_cases hl : (engEnc (jsonDumps values)).length > TEXT_FIELD_MAX_LENGTH
    · rw [if_pos hl]
      exact iff_of_true ⟨_, rfl⟩ hl
    · rw [if_neg hl]
      exact iff_of_false (by rintro ⟨msg, h⟩; exact absurd h (by simp)) hl

/-- Demo secret mapping for the codec witness. -/
def demoValues : SecretValues := [("a", "b")]

/-- Demo serializer standing in for `json.dumps` at the witness point. -/
def demoDumps : SecretValues → String := fun _ => "ab"

/-- Demo deserializer standing in for `json.loads` at the witness point. -/
def demoLoads : String → Option SecretValues :=
  fun s => if s = "ab" then some demoValues else none

/-- Witness for C8: the mapping [("a", "b")] serialized to "ab" encodes in
no-key mode to the base64 bytes "YWI=" and decodes back to the original
mapping; with a concrete reversible engine (UTF-8 bytes), the keyed mode
round-trips as well. -/
theorem C8_witness :
    dump_secret_values demoDumps demoValues none = .ok [89, 87, 73, 61] ∧
    load_secret_values demoLoads [89, 87, 73, 61] none = some demoValues ∧
    load_secret_values demoLoads (strUtf8 "ab") (some (fun bs => utf8ToStr bs))
      = some demoValues := by
  have h := C8_secret_values_roundtrip demoDumps demoLoads demoValues
    (fun s => strUtf8 s) (fun bs => utf8ToStr bs)
    (by decide) (utf8ToStr_strUtf8 "ab")
  exact ⟨rfl, h.1 [89, 87, 73, 61] rfl, h.2.1 (strUtf8 "ab") rfl⟩

end ZenStore
